import Mathlib

/-!
# rtl_reset: device enumeration, selector resolution and reset

A shallow embedding of `rtl_reset.c`.  The host USB stack is a list of
devices in the order `libusb_get_device_list` returns them; every libusb call
the program makes is recorded, in order, in a call log, and every `fprintf` to
stderr is recorded as its format string together with its arguments.

Conventions
* a C string is the list of its characters before the terminating NUL, and
  `strcmp`, `strncmp` are reduced to the sign of their result;
* `uint32_t` arithmetic is written with an explicit `% 4294967296`, the
  conversion to `int` is `to_int`, `long` and `size_t` are 64 bits wide (LP64);
* the loop index `int i` of the enumeration loops is a list position (the
  host list is shorter than `INT_MAX` in every execution without overflow of
  `i`);
* the local arrays of `verbose_device_search` are uninitialised on entry: the
  strings they hold then are a parameter of the function;
* the host list does not change while the program runs;
* `libusb_init` and `libusb_get_device_list` are taken to succeed.
-/

namespace RtlReset

/-! ## C strings and machine integers -/

/-- The characters of a C string, terminating NUL excluded. -/
abbrev CStr := List Char

/-- Conversion of an integer value to `int` (32 bit, two's complement): the
value is reduced modulo 2^32 and the upper half of the range is negative. -/
def to_int (n : Int) : Int :=
  if 2147483648 ≤ n % 4294967296 then n % 4294967296 - 4294967296 else n % 4294967296

/-- Conversion of an integer value to `uint32_t`. -/
def to_uint32 (n : Int) : Nat := (n % 4294967296).toNat

/-- The `uint32_t` value of `n - 1`: the predecessor, wrapping to `UINT32_MAX` at 0. -/
def uint32_pred (n : Nat) : Nat := if n = 0 then 4294967295 else n - 1

/-- Result of `strlen`: the number of characters before the NUL. -/
def strlen (s : CStr) : Nat := s.length

/-- Result of `strcmp`, reduced to its sign (the only part C specifies). -/
def strcmp : CStr → CStr → Int
  | [], [] => 0
  | [], _ :: _ => -1
  | _ :: _, [] => 1
  | a :: as, b :: bs => if a = b then strcmp as bs else if a.toNat < b.toNat then -1 else 1

/-- Result of `strncmp` on at most `n` characters, reduced to its sign. -/
def strncmp : CStr → CStr → Nat → Int
  | _, _, 0 => 0
  | [], [], _ + 1 => 0
  | [], _ :: _, _ + 1 => -1
  | _ :: _, [], _ + 1 => 1
  | a :: as, b :: bs, n + 1 =>
    if a = b then strncmp as bs n else if a.toNat < b.toNat then -1 else 1

/-- The `isspace` test of the C locale: space, and the controls 9 to 13. -/
def isspace (c : Char) : Bool := c.toNat = 32 || (9 ≤ c.toNat && c.toNat ≤ 13)

/-- Value of a character as a digit in some base up to 36, as `strtol` reads it. -/
def digit_value (c : Char) : Option Nat :=
  if 48 ≤ c.toNat ∧ c.toNat ≤ 57 then some (c.toNat - 48)
  else if 97 ≤ c.toNat ∧ c.toNat ≤ 122 then some (c.toNat - 97 + 10)
  else if 65 ≤ c.toNat ∧ c.toNat ≤ 90 then some (c.toNat - 65 + 10)
  else none

/-- Whether a character is a digit of the given base. -/
def is_digit (base : Nat) (c : Char) : Bool :=
  match digit_value c with
  | some d => decide (d < base)
  | none => false

/-- The digit loop of `strtol`: consumes digits of the base, accumulating the
mathematical value, and returns it with the unconsumed rest. -/
def scan_digits (base : Nat) : CStr → Nat → Nat × CStr
  | [], acc => (acc, [])
  | c :: cs, acc =>
    match digit_value c with
    | some d => if d < base then scan_digits base cs (acc * base + d) else (acc, c :: cs)
    | none => (acc, c :: cs)

/-- The largest `long`. -/
def LONG_MAX : Int := 9223372036854775807

/-- The smallest `long`. -/
def LONG_MIN : Int := -9223372036854775808

/-- Sign application and saturation of `strtol`. -/
def strtol_clamp (neg : Bool) (v : Nat) : Int :=
  if neg then (if -(v : Int) < LONG_MIN then LONG_MIN else -(v : Int))
  else (if LONG_MAX < (v : Int) then LONG_MAX else (v : Int))

/-- Sign recognition of `strtol`: an optional `+` or `-`. -/
def strtol_sign : CStr → Bool × CStr
  | c :: t => if c = '-' then (true, t) else if c = '+' then (false, t) else (false, c :: t)
  | [] => (false, [])

/-- Base recognition of `strtol` called with base 0: `0x` or `0X` followed by
a hexadecimal digit selects 16 (and is skipped), another leading `0` selects 8,
anything else 10. -/
def strtol_base : CStr → Nat × CStr
  | c :: x :: h :: t =>
    if c = '0' ∧ (x = 'x' ∨ x = 'X') ∧ is_digit 16 h = true then (16, h :: t)
    else if c = '0' then (8, c :: x :: h :: t)
    else (10, c :: x :: h :: t)
  | c :: t => if c = '0' then (8, c :: t) else (10, c :: t)
  | [] => (10, [])

/-- The call `strtol(nptr, &endptr, 0)` of the C library on an LP64 platform:
the `long` it returns and the string `endptr` points to.  When no digit can
be read the value is 0 and `endptr` is `nptr` itself. -/
def strtol (nptr : CStr) : Int × CStr :=
  let sg := strtol_sign (nptr.dropWhile isspace)
  let bs := strtol_base sg.2
  match bs.2 with
  | [] => (0, nptr)
  | c :: cs =>
    if is_digit bs.1 c = true then
      let r := scan_digits bs.1 (c :: cs) 0
      (strtol_clamp sg.1 r.1, r.2)
    else (0, nptr)

/-! ## The known-device table and the host device list -/

/-- One entry of the table `known_devices` of `knowndevices.h`. -/
structure rtlsdr_dongle_t where
  vid : Nat
  pid : Nat
  name : CStr
deriving DecidableEq, Repr

/-- One device of the host list, with what libusb answers about it:
its descriptor identifiers, the result of `libusb_open`, the result of
`libusb_get_device_descriptor` on the opened handle, the three ASCII strings
`libusb_get_string_descriptor_ascii` leaves in a zeroed buffer, and the result
of `libusb_reset_device`. -/
structure libusb_device where
  idVendor : Nat
  idProduct : Nat
  open_r : Int
  descriptor_r : Int
  manufacturer : CStr
  product : CStr
  serial : CStr
  reset_r : Int
deriving DecidableEq, Repr

/-- The string descriptor a read asks for. -/
inductive StringIndex where
  | iManufacturer
  | iProduct
  | iSerialNumber
deriving DecidableEq, Repr

/-- A call into libusb; the number is the position of the device in the host
list. -/
inductive Call where
  | libusb_init
  | libusb_get_device_list
  | libusb_get_device_descriptor (i : Nat)
  | libusb_open (i : Nat)
  | libusb_get_string_descriptor_ascii (i : Nat) (which : StringIndex)
  | libusb_reset_device (i : Nat)
  | libusb_close (i : Nat)
  | libusb_free_device_list
  | libusb_exit
deriving DecidableEq, Repr

/-- An argument of an `fprintf` call: `%d` takes an `int`, `%s` a string. -/
inductive Arg where
  | d (v : Int)
  | s (v : CStr)
deriving DecidableEq, Repr

/-- One `fprintf(stderr, fmt, args...)`. -/
structure Fprintf where
  fmt : String
  args : List Arg
deriving DecidableEq, Repr

/-- The loop of `find_known_device`: the position of the first entry with the
given identifiers. -/
def find_known_device_loop (vid pid : Nat) : List rtlsdr_dongle_t → Nat → Option Nat
  | [], _ => none
  | e :: rest, i =>
    if e.vid = vid ∧ e.pid = pid then some i
    else find_known_device_loop vid pid rest (i + 1)

/-- The function `find_known_device`: the position `i` of the entry the
returned pointer `&known_devices[i]` designates, `none` for `NULL`. -/
def find_known_device (known_devices : List rtlsdr_dongle_t) (vid pid : Nat) : Option Nat :=
  find_known_device_loop vid pid known_devices 0

/-- The loop of `rtlsdr_get_device_count` from host position `i` on. -/
def rtlsdr_get_device_count_loop (known_devices : List rtlsdr_dongle_t) :
    List libusb_device → Nat → Nat → Nat × List Call
  | [], _, device_count => (device_count, [])
  | dev :: rest, i, device_count =>
    let r := rtlsdr_get_device_count_loop known_devices rest (i + 1)
      (if (find_known_device known_devices dev.idVendor dev.idProduct).isSome
        then (device_count + 1) % 4294967296 else device_count)
    (r.1, Call.libusb_get_device_descriptor i :: r.2)

/-- The function `rtlsdr_get_device_count`: its `uint32_t` result and its libusb calls. -/
def rtlsdr_get_device_count (known_devices : List rtlsdr_dongle_t)
    (list : List libusb_device) : Nat × List Call :=
  let r := rtlsdr_get_device_count_loop known_devices list 0 0
  (r.1, [Call.libusb_init, Call.libusb_get_device_list] ++ r.2
    ++ [Call.libusb_free_device_list, Call.libusb_exit])

/-- The loop of `rtlsdr_get_device_name`; the last argument is the current
value of the local `device`, which is also what the loop leaves behind. -/
def rtlsdr_get_device_name_loop (known_devices : List rtlsdr_dongle_t) (index : Nat) :
    List libusb_device → Nat → Nat → Option Nat → Option Nat × List Call
  | [], _, _, device => (device, [])
  | dev :: rest, i, device_count, _ =>
    match find_known_device known_devices dev.idVendor dev.idProduct with
    | some k =>
      if index = uint32_pred ((device_count + 1) % 4294967296) then
        (some k, [Call.libusb_get_device_descriptor i])
      else
        let r := rtlsdr_get_device_name_loop known_devices index rest (i + 1)
          ((device_count + 1) % 4294967296) (some k)
        (r.1, Call.libusb_get_device_descriptor i :: r.2)
    | none =>
      let r := rtlsdr_get_device_name_loop known_devices index rest (i + 1) device_count none
      (r.1, Call.libusb_get_device_descriptor i :: r.2)

/-- The function `rtlsdr_get_device_name`: the name it returns and its libusb calls. -/
def rtlsdr_get_device_name (known_devices : List rtlsdr_dongle_t)
    (list : List libusb_device) (index : Nat) : CStr × List Call :=
  let r := rtlsdr_get_device_name_loop known_devices index list 0 0 none
  ((match r.1 with
    | some k => (match known_devices.get? k with
      | some e => e.name
      | none => [])
    | none => []),
   [Call.libusb_init, Call.libusb_get_device_list] ++ r.2
    ++ [Call.libusb_free_device_list, Call.libusb_exit])

/-! ## Reading the strings of a device and resetting it -/

/-- The three output pointers of the string readers and what they point to:
`none` is a `NULL` pointer, `some b` a buffer whose current content is `b`. -/
structure Slots where
  manufact : Option CStr
  product : Option CStr
  serial : Option CStr
deriving DecidableEq, Repr

/-- The function `libusb_get_usb_strings` on the opened device at host
position `i`: result, buffers afterwards, libusb calls.  A non-null slot is
zeroed and then receives the ASCII string of the descriptor. -/
def libusb_get_usb_strings (dev : libusb_device) (i : Nat) (out : Slots) :
    Int × Slots × List Call :=
  if dev.descriptor_r < 0 then (-1, out, [Call.libusb_get_device_descriptor i])
  else
    (0,
     { manufact := out.manufact.map (fun _ => dev.manufacturer),
       product := out.product.map (fun _ => dev.product),
       serial := out.serial.map (fun _ => dev.serial) },
     [Call.libusb_get_device_descriptor i]
      ++ (if out.manufact.isSome
            then [Call.libusb_get_string_descriptor_ascii i StringIndex.iManufacturer] else [])
      ++ (if out.product.isSome
            then [Call.libusb_get_string_descriptor_ascii i StringIndex.iProduct] else [])
      ++ (if out.serial.isSome
            then [Call.libusb_get_string_descriptor_ascii i StringIndex.iSerialNumber] else []))

/-- The loop of `rtlsdr_get_device_usb_strings`; `r` is the current value of
the local `r`. -/
def rtlsdr_get_device_usb_strings_loop (known_devices : List rtlsdr_dongle_t) (index : Nat)
    (out : Slots) : List libusb_device → Nat → Nat → Int → Int × Slots × List Call
  | [], _, _, r => (r, out, [])
  | dev :: rest, i, device_count, r =>
    if (find_known_device known_devices dev.idVendor dev.idProduct).isSome then
      if index = uint32_pred ((device_count + 1) % 4294967296) then
        if dev.open_r = 0 then
          let g := libusb_get_usb_strings dev i out
          (g.1, g.2.1,
            [Call.libusb_get_device_descriptor i, Call.libusb_open i] ++ g.2.2
              ++ [Call.libusb_close i])
        else (dev.open_r, out, [Call.libusb_get_device_descriptor i, Call.libusb_open i])
      else
        let t := rtlsdr_get_device_usb_strings_loop known_devices index out rest (i + 1)
          ((device_count + 1) % 4294967296) r
        (t.1, t.2.1, Call.libusb_get_device_descriptor i :: t.2.2)
    else
      let t := rtlsdr_get_device_usb_strings_loop known_devices index out rest (i + 1)
        device_count r
      (t.1, t.2.1, Call.libusb_get_device_descriptor i :: t.2.2)

/-- The function `rtlsdr_get_device_usb_strings`: result, buffers afterwards,
libusb calls. -/
def rtlsdr_get_device_usb_strings (known_devices : List rtlsdr_dongle_t)
    (list : List libusb_device) (index : Nat) (out : Slots) : Int × Slots × List Call :=
  let t := rtlsdr_get_device_usb_strings_loop known_devices index out list 0 0 (-2)
  (t.1, t.2.1, [Call.libusb_init, Call.libusb_get_device_list] ++ t.2.2
    ++ [Call.libusb_free_device_list, Call.libusb_exit])

/-- The loop of `rtl_device_reset`; `r` is the current value of the local `r`. -/
def rtl_device_reset_loop (known_devices : List rtlsdr_dongle_t) (index : Nat) :
    List libusb_device → Nat → Nat → Int → Int × List Call
  | [], _, _, r => (r, [])
  | dev :: rest, i, device_count, r =>
    if (find_known_device known_devices dev.idVendor dev.idProduct).isSome then
      if index = uint32_pred ((device_count + 1) % 4294967296) then
        if dev.open_r = 0 then
          (dev.reset_r,
            [Call.libusb_get_device_descriptor i, Call.libusb_open i,
             Call.libusb_reset_device i, Call.libusb_close i])
        else (dev.open_r, [Call.libusb_get_device_descriptor i, Call.libusb_open i])
      else
        let t := rtl_device_reset_loop known_devices index rest (i + 1)
          ((device_count + 1) % 4294967296) r
        (t.1, Call.libusb_get_device_descriptor i :: t.2)
    else
      let t := rtl_device_reset_loop known_devices index rest (i + 1) device_count r
      (t.1, Call.libusb_get_device_descriptor i :: t.2)

/-- The function `rtl_device_reset`: result and libusb calls. -/
def rtl_device_reset (known_devices : List rtlsdr_dongle_t) (list : List libusb_device)
    (index : Nat) : Int × List Call :=
  let t := rtl_device_reset_loop known_devices index list 0 0 (-2)
  (t.1, [Call.libusb_init, Call.libusb_get_device_list] ++ t.2
    ++ [Call.libusb_free_device_list, Call.libusb_exit])

/-! ## The selector resolver -/

/-- The local arrays `vendor`, `product` and `serial` of
`verbose_device_search`, as the strings they currently hold. -/
structure Locals where
  vendor : CStr
  product : CStr
  serial : CStr
deriving DecidableEq, Repr

/-- The call `rtlsdr_get_device_usb_strings((uint32_t)i, vendor, product, serial)`
of `verbose_device_search`, whose result is discarded: the arrays afterwards
and the libusb calls. -/
def read_strings (known_devices : List rtlsdr_dongle_t) (list : List libusb_device)
    (i : Nat) (b : Locals) : Locals × List Call :=
  let t := rtlsdr_get_device_usb_strings known_devices list (to_uint32 i)
    { manufact := some b.vendor, product := some b.product, serial := some b.serial }
  ({ vendor := t.2.1.manufact.getD b.vendor,
     product := t.2.1.product.getD b.product,
     serial := t.2.1.serial.getD b.serial }, t.2.2)

/-- The listing loop of `verbose_device_search` over the indices still to visit. -/
def listing_loop (known_devices : List rtlsdr_dongle_t) (list : List libusb_device) :
    List Nat → Locals → Locals × List Fprintf × List Call
  | [], b => (b, [], [])
  | i :: is, b =>
    let g := read_strings known_devices list i b
    let t := listing_loop known_devices list is g.1
    (t.1,
     { fmt := "  %d:  %s, %s, SN: %s\n",
       args := [Arg.d i, Arg.s g.1.vendor, Arg.s g.1.product, Arg.s g.1.serial] } :: t.2.1,
     g.2 ++ t.2.2)

/-- The exact-match loop: the first visited index at which it stops, if any. -/
def exact_loop (known_devices : List rtlsdr_dongle_t) (list : List libusb_device) (s : CStr) :
    List Nat → Locals → Option Nat × Locals × List Call
  | [], b => (none, b, [])
  | i :: is, b =>
    let g := read_strings known_devices list i b
    if strcmp s g.1.serial ≠ 0 then
      let t := exact_loop known_devices list s is g.1
      (t.1, t.2.1, g.2 ++ t.2.2)
    else (some i, g.1, g.2)

/-- The loop matching the selector against the start of the serial. -/
def pfx_loop (known_devices : List rtlsdr_dongle_t) (list : List libusb_device) (s : CStr) :
    List Nat → Locals → Option Nat × Locals × List Call
  | [], b => (none, b, [])
  | i :: is, b =>
    let g := read_strings known_devices list i b
    if strncmp s g.1.serial (strlen s) ≠ 0 then
      let t := pfx_loop known_devices list s is g.1
      (t.1, t.2.1, g.2 ++ t.2.2)
    else (some i, g.1, g.2)

/-- The assignment `offset = strlen(serial) - strlen(s)`: a `size_t`
difference converted to `int`. -/
def sfx_offset (s serial : CStr) : Int :=
  to_int ((((strlen serial : Nat) : Int) - ((strlen s : Nat) : Int)) % 18446744073709551616)

/-- The loop matching the selector against the end of the serial. -/
def sfx_loop (known_devices : List rtlsdr_dongle_t) (list : List libusb_device) (s : CStr) :
    List Nat → Locals → Option Nat × Locals × List Call
  | [], b => (none, b, [])
  | i :: is, b =>
    let g := read_strings known_devices list i b
    if sfx_offset s g.1.serial < 0 then
      let t := sfx_loop known_devices list s is g.1
      (t.1, t.2.1, g.2 ++ t.2.2)
    else if strncmp s (g.1.serial.drop (sfx_offset s g.1.serial).toNat) (strlen s) ≠ 0 then
      let t := sfx_loop known_devices list s is g.1
      (t.1, t.2.1, g.2 ++ t.2.2)
    else (some i, g.1, g.2)

/-- The return path shared by the tiers: the `fprintf` naming the chosen
device (which calls `rtlsdr_get_device_name`) and `return device`. -/
def announce (known_devices : List rtlsdr_dongle_t) (list : List libusb_device)
    (fmt : String) (device : Int) (err : List Fprintf) (calls : List Call) :
    Int × List Fprintf × List Call :=
  let nm := rtlsdr_get_device_name known_devices list (to_uint32 device)
  (device, err ++ [{ fmt := fmt, args := [Arg.d device, Arg.s nm.1] }], calls ++ nm.2)

/-- The three serial tiers of `verbose_device_search`, in the order of the
source: exact match, match at the start, match at the end.  `err` and `calls`
are what the function has written and called before the tiers start. -/
def serial_tiers (known_devices : List rtlsdr_dongle_t) (list : List libusb_device)
    (s : CStr) (idx : List Nat) (b : Locals) (err : List Fprintf) (calls : List Call) :
    Int × List Fprintf × List Call :=
  let e := exact_loop known_devices list s idx b
  match e.1 with
  | some i =>
    announce known_devices list "Using device %d: %s\n" i err (calls ++ e.2.2)
  | none =>
    let p := pfx_loop known_devices list s idx e.2.1
    match p.1 with
    | some i =>
      announce known_devices list "Using device %d: %s\n" i err (calls ++ e.2.2 ++ p.2.2)
    | none =>
      let x := sfx_loop known_devices list s idx p.2.1
      match x.1 with
      | some i =>
        announce known_devices list "Resetting device %d: %s\n" i err
          (calls ++ e.2.2 ++ p.2.2 ++ x.2.2)
      | none =>
        (-1, err ++ [{ fmt := "No matching devices found.\n", args := [] }],
          calls ++ e.2.2 ++ p.2.2 ++ x.2.2)

/-- The function `verbose_device_search` on selector `s`, the local arrays
holding `b0` on entry (they are uninitialised): the value returned, the lines
written to stderr and the libusb calls. -/
def verbose_device_search (known_devices : List rtlsdr_dongle_t) (list : List libusb_device)
    (s : CStr) (b0 : Locals) : Int × List Fprintf × List Call :=
  let cnt := rtlsdr_get_device_count known_devices list
  let device_count : Int := to_int cnt.1
  if device_count = 0 then
    (-1, [{ fmt := "No supported devices found.\n", args := [] }], cnt.2)
  else
    let idx := List.range device_count.toNat
    let l := listing_loop known_devices list idx b0
    let err := [{ fmt := "Found %d device(s):\n", args := [Arg.d device_count] }] ++ l.2.1
      ++ [{ fmt := "\n", args := [] }]
    let n := strtol s
    let device := to_int n.1
    if n.2 = [] ∧ 0 ≤ device ∧ device < device_count then
      announce known_devices list "Using device %d: %s\n" device err (cnt.2 ++ l.2.2)
    else
      serial_tiers known_devices list s idx l.1 err (cnt.2 ++ l.2.2)

/-! ## The entry point -/

/-- The code `ENODEV` of `errno.h` (Linux value). -/
def ENODEV : Int := 19

/-- What one call of `getopt(argc, argv, "d:h")` yields before it returns -1:
`-d` with its argument, `-h`, or the `?` of an unknown flag or missing argument. -/
inductive Opt where
  | d (optarg : CStr)
  | h
  | unknown
deriving DecidableEq, Repr

/-- How the process ends: `main` returns a value, or `exit` is called. -/
inductive Outcome where
  | returned (v : Int)
  | exited (status : Int)
deriving DecidableEq, Repr

/-- The text `usage` prints before `exit(1)`. -/
def usage_text : Fprintf :=
  { fmt := "rtl_reset, a tool for resetting RTL2832 based DVB-T receivers\nUsage:\n\t[-d device_index (default: 0)]\n",
    args := [] }

/-- The state of `main` while it runs: the locals `devGiven` and `devIndex`,
the number of resolver calls made so far, stderr and the libusb calls. -/
structure MainState where
  devGiven : Int
  devIndex : Int
  searches : Nat
  err : List Fprintf
  calls : List Call
deriving DecidableEq, Repr

/-- The `getopt` loop of `main`.  `stack k` is what the uninitialised arrays of
the resolver hold on entry to its call number `k`.  The result is `none` when
`usage` ended the process. -/
def getopt_loop (known_devices : List rtlsdr_dongle_t) (list : List libusb_device)
    (stack : Nat → Locals) : List Opt → MainState → Option MainState × MainState
  | [], st => (some st, st)
  | Opt.d optarg :: rest, st =>
    let v := verbose_device_search known_devices list optarg (stack st.searches)
    getopt_loop known_devices list stack rest
      { devGiven := 1, devIndex := v.1, searches := st.searches + 1,
        err := st.err ++ v.2.1, calls := st.calls ++ v.2.2 }
  | _ :: _, st => (none, { st with err := st.err ++ [usage_text] })

/-- The part of `main` after the `getopt` loop: the default selector "0" when
no `-d` was given, the `-ENODEV` exit, and the reset. -/
def main_after_getopt (known_devices : List rtlsdr_dongle_t) (list : List libusb_device)
    (stack : Nat → Locals) (st : MainState) : Outcome × List Fprintf × List Call :=
  let v := if st.devGiven = 0
    then verbose_device_search known_devices list "0".toList (stack st.searches)
    else (st.devIndex, [], [])
  if v.1 < 0 then (Outcome.returned (-ENODEV), st.err ++ v.2.1, st.calls ++ v.2.2)
  else
    let r := rtl_device_reset known_devices list (to_uint32 v.1)
    (Outcome.returned r.1, st.err ++ v.2.1, st.calls ++ v.2.2 ++ r.2)

/-- The function `main` on the options `getopt` yields: how the process ends,
stderr, and the libusb calls in order. -/
def main (known_devices : List rtlsdr_dongle_t) (list : List libusb_device)
    (stack : Nat → Locals) (opts : List Opt) : Outcome × List Fprintf × List Call :=
  let g := getopt_loop known_devices list stack opts
    { devGiven := 0, devIndex := 0, searches := 0, err := [], calls := [] }
  match g.1 with
  | none => (Outcome.exited 1, g.2.err, g.2.calls)
  | some st => main_after_getopt known_devices list stack st

/-! ## Specification-side definitions -/

/-- Whether the identifiers of a host device have an entry in the table. -/
def known (known_devices : List rtlsdr_dongle_t) (dev : libusb_device) : Bool :=
  (find_known_device known_devices dev.idVendor dev.idProduct).isSome

/-- The sublist of the host devices whose identifiers are in the table, in host order. -/
def matching (known_devices : List rtlsdr_dongle_t) (list : List libusb_device) :
    List libusb_device :=
  list.filter (known known_devices)

/-- The devices of `matching`, each with its position in a host list that
starts at position `i0`. -/
def matching_from (known_devices : List rtlsdr_dongle_t) (list : List libusb_device)
    (i0 : Nat) : List (Nat × libusb_device) :=
  (list.enumFrom i0).filter (fun p => known known_devices p.2)

/-- The descriptor reads of an enumeration loop that visits `n` positions from `i0` on. -/
def descriptor_reads (i0 n : Nat) : List Call :=
  (List.range' i0 n).map Call.libusb_get_device_descriptor

/-- What `rtl_device_reset` does once the enumeration has selected `sel`
(nothing selected: the loop ran over all `n` positions from `i0`). -/
def reset_selected (sel : Option (Nat × libusb_device)) (i0 n : Nat) (r : Int) :
    Int × List Call :=
  match sel with
  | none => (r, descriptor_reads i0 n)
  | some (p, dev) =>
    if dev.open_r = 0 then
      (dev.reset_r, descriptor_reads i0 (p + 1 - i0)
        ++ [Call.libusb_open p, Call.libusb_reset_device p, Call.libusb_close p])
    else (dev.open_r, descriptor_reads i0 (p + 1 - i0) ++ [Call.libusb_open p])

/-- What `rtlsdr_get_device_usb_strings` does once the enumeration has
selected `sel` (nothing selected: the loop ran over all `n` positions from `i0`). -/
def strings_selected (out : Slots) (sel : Option (Nat × libusb_device)) (i0 n : Nat) (r : Int) :
    Int × Slots × List Call :=
  match sel with
  | none => (r, out, descriptor_reads i0 n)
  | some (p, dev) =>
    if dev.open_r = 0 then
      ((libusb_get_usb_strings dev p out).1, (libusb_get_usb_strings dev p out).2.1,
        descriptor_reads i0 (p + 1 - i0) ++ [Call.libusb_open p]
          ++ (libusb_get_usb_strings dev p out).2.2 ++ [Call.libusb_close p])
    else (dev.open_r, out, descriptor_reads i0 (p + 1 - i0) ++ [Call.libusb_open p])

/-- The table of the scenarios of the specification: one entry, the generic RTL2832U. -/
def spec_table : List rtlsdr_dongle_t :=
  [{ vid := 0x0bda, pid := 0x2838, name := "Generic RTL2832U".toList }]

/-- A host device with the identifiers of `spec_table`, the given serial and
the given result of `libusb_open`; everything else succeeds. -/
def dongle (serial : String) (open_r : Int) : libusb_device :=
  { idVendor := 0x0bda, idProduct := 0x2838, open_r := open_r, descriptor_r := 0,
    manufacturer := "Realtek".toList, product := "RTL2838UHIDIR".toList,
    serial := serial.toList, reset_r := 0 }

/-- A host device whose identifiers are not in `spec_table`. -/
def hub : libusb_device :=
  { idVendor := 0x1d6b, idProduct := 0x0002, open_r := 0, descriptor_r := 0,
    manufacturer := "Linux".toList, product := "hub".toList, serial := "111".toList,
    reset_r := 0 }

/-- Local arrays that happen to hold empty strings on entry. -/
def zeroed : Locals := { vendor := [], product := [], serial := [] }

/-- The serial string of the matching device of index `i` (empty when there
is no such device). -/
def serial_at (known_devices : List rtlsdr_dongle_t) (list : List libusb_device) (i : Nat) :
    CStr :=
  match (matching known_devices list)[i]? with
  | some dev => dev.serial
  | none => []

/-- The index `i` is the lowest index of the list whose element satisfies `P`. -/
def lowest_index (P : CStr → Prop) (serials : List CStr) (i : Nat) : Prop :=
  (∃ x, serials[i]? = some x ∧ P x) ∧ ∀ j, j < i → ∀ y, serials[j]? = some y → ¬ P y

/-- The host positions of the devices a call log opens, in order. -/
def opened (calls : List Call) : List Nat :=
  calls.filterMap (fun c => match c with
    | Call.libusb_open p => some p
    | _ => none)

/-- The host positions of the devices a call log resets, in order. -/
def resets (calls : List Call) : List Nat :=
  calls.filterMap (fun c => match c with
    | Call.libusb_reset_device p => some p
    | _ => none)

/-- The name of the table entry `find_known_device` returns for a host device
(empty when there is none). -/
def entry_name (known_devices : List rtlsdr_dongle_t) (dev : libusb_device) : CStr :=
  match find_known_device known_devices dev.idVendor dev.idProduct with
  | some k => (match known_devices.get? k with
    | some e => e.name
    | none => [])
  | none => []

/-- The options `getopt` yields for a command line with at most one `-d` flag
and no other flag: none at all, or the one `-d` with its argument. -/
def at_most_one_d (sel : Option CStr) : List Opt :=
  match sel with
  | none => []
  | some a => [Opt.d a]

/-- The selector `main` resolves for such a command line: the argument of
`-d`, or the default "0". -/
def selector_of (sel : Option CStr) : CStr :=
  match sel with
  | none => "0".toList
  | some a => a

/-- The index a serial-tier search over the given serial strings arrives at:
the first exact match, else the first serial starting with the selector, else
the first serial ending with it, else -1. -/
def first_serial_match (serial : Nat → CStr) (n : Nat) (s : CStr) : Int :=
  match (List.range n).find? (fun i => decide (serial i = s)) with
  | some i => (i : Int)
  | none =>
    match (List.range n).find? (fun i => decide (s <+: serial i)) with
    | some i => (i : Int)
    | none =>
      match (List.range n).find? (fun i => decide (s <:+ serial i)) with
      | some i => (i : Int)
      | none => -1

/-! ## Facts about the C library model and the enumeration loops -/


theorem strcmp_eq_zero_iff (a b : CStr) : strcmp a b = 0 ↔ a = b := by
  induction a generalizing b with
  | nil => cases b <;> simp [strcmp]
  | cons x xs ih =>
    cases b with
    | nil => simp [strcmp]
    | cons y ys =>
      by_cases hxy : x = y
      · simp [strcmp, hxy, ih]
      · by_cases hlt : x.toNat < y.toNat <;> simp [strcmp, hxy, hlt]

theorem strncmp_strlen_eq_zero_iff (s t : CStr) : strncmp s t (strlen s) = 0 ↔ s <+: t := by
  induction s generalizing t with
  | nil => simp [strcmp, strlen, strncmp]
  | cons x xs ih =>
    cases t with
    | nil => simp [strncmp, strlen]
    | cons y ys =>
      by_cases hxy : x = y
      · have := ih ys
        simp only [strlen] at this
        simp [strncmp, strlen, hxy, this, List.cons_prefix_cons]
      · by_cases hlt : x.toNat < y.toNat <;>
          simp [strncmp, strlen, hxy, hlt, List.cons_prefix_cons]

theorem to_int_of_range (n : Int) (h1 : -2147483648 ≤ n) (h2 : n < 2147483648) : to_int n = n := by
  unfold to_int
  split <;> omega

theorem to_uint32_of_range (n : Nat) (h : n < 4294967296) : to_uint32 (n : Int) = n := by
  unfold to_uint32
  omega

theorem sfx_offset_eq (s serial : CStr) (hs : s.length < 2147483648)
    (ht : serial.length < 2147483648) :
    sfx_offset s serial = (serial.length : Int) - (s.length : Int) := by
  unfold sfx_offset strlen to_int
  split <;> omega

theorem matching_from_cons (kd : List rtlsdr_dongle_t) (dev : libusb_device)
    (l : List libusb_device) (i0 : Nat) :
    matching_from kd (dev :: l) i0 =
      if known kd dev = true then (i0, dev) :: matching_from kd l (i0 + 1)
      else matching_from kd l (i0 + 1) := by
  simp [matching_from, List.enumFrom, List.filter_cons]

theorem matching_from_map_snd (kd : List rtlsdr_dongle_t) (l : List libusb_device) (i0 : Nat) :
    (matching_from kd l i0).map Prod.snd = matching kd l := by
  induction l generalizing i0 with
  | nil => simp [matching_from, matching]
  | cons dev l ih =>
    rw [matching_from_cons]
    by_cases hk : known kd dev = true
    · simp [hk, ih, matching, List.filter_cons]
    · simp [hk, ih, matching, List.filter_cons]

theorem matching_from_length (kd : List rtlsdr_dongle_t) (l : List libusb_device) (i0 : Nat) :
    (matching_from kd l i0).length = (matching kd l).length := by
  rw [← matching_from_map_snd kd l i0, List.length_map]

theorem matching_length_le (kd : List rtlsdr_dongle_t) (l : List libusb_device) :
    (matching kd l).length ≤ l.length :=
  List.length_filter_le _ _

theorem matching_from_pos (kd : List rtlsdr_dongle_t) (l : List libusb_device) (i0 k : Nat)
    (p : Nat) (dev : libusb_device) (h : (matching_from kd l i0)[k]? = some (p, dev)) :
    i0 ≤ p ∧ p < i0 + l.length ∧ l[p - i0]? = some dev ∧ known kd dev = true := by
  induction l generalizing i0 k with
  | nil => simp [matching_from] at h
  | cons d l ih =>
    rw [matching_from_cons] at h
    by_cases hk : known kd d = true
    · simp only [hk, if_true] at h
      cases k with
      | zero =>
        simp at h
        obtain ⟨rfl, rfl⟩ := h
        simp [hk]
      | succ k =>
        simp at h
        obtain ⟨h1, h2, h3, h4⟩ := ih (i0 + 1) k h
        refine ⟨by omega, by simp; omega, ?_, h4⟩
        have : p - i0 = (p - (i0 + 1)) + 1 := by omega
        rw [this]; simpa using h3
    · simp only [hk] at h
      obtain ⟨h1, h2, h3, h4⟩ := ih (i0 + 1) k h
      refine ⟨by omega, by simp; omega, ?_, h4⟩
      have : p - i0 = (p - (i0 + 1)) + 1 := by omega
      rw [this]; simpa using h3

theorem descriptor_reads_succ (i0 n : Nat) :
    descriptor_reads i0 (n + 1) = Call.libusb_get_device_descriptor i0 :: descriptor_reads (i0 + 1) n := by
  simp [descriptor_reads, List.range']

theorem rtlsdr_get_device_count_loop_eq (kd : List rtlsdr_dongle_t) (l : List libusb_device)
    (i0 c : Nat) (h : c + l.length < 4294967296) :
    rtlsdr_get_device_count_loop kd l i0 c
      = (c + (matching kd l).length, descriptor_reads i0 l.length) := by
  induction l generalizing i0 c with
  | nil => simp [rtlsdr_get_device_count_loop, matching, descriptor_reads]
  | cons d l ih =>
    simp only [List.length_cons] at h
    unfold rtlsdr_get_device_count_loop
    by_cases hk : known kd d = true
    · have hk2 : (find_known_device kd d.idVendor d.idProduct).isSome = true := hk
      have hm : (c + 1) % 4294967296 = c + 1 := by omega
      simp only [hk2, if_true, hm]
      rw [ih (i0 + 1) (c + 1) (by omega)]
      simp [matching, List.filter_cons, hk, descriptor_reads_succ]
      omega
    · have hk2 : ¬ (find_known_device kd d.idVendor d.idProduct).isSome = true := hk
      simp only [hk2, Bool.false_eq_true, ↓reduceIte]
      rw [ih (i0 + 1) c (by omega)]
      simp [matching, List.filter_cons, hk, descriptor_reads_succ]

theorem rtlsdr_get_device_count_eq (kd : List rtlsdr_dongle_t) (usb : List libusb_device)
    (h : usb.length < 4294967296) :
    rtlsdr_get_device_count kd usb
      = ((matching kd usb).length,
         [Call.libusb_init, Call.libusb_get_device_list] ++ descriptor_reads 0 usb.length
          ++ [Call.libusb_free_device_list, Call.libusb_exit]) := by
  unfold rtlsdr_get_device_count
  rw [rtlsdr_get_device_count_loop_eq kd usb 0 0 (by omega)]
  simp

theorem getElem?_cons_sub {α : Type} (x : α) (xs : List α) (index c : Nat) (h : c < index) :
    (x :: xs)[index - c]? = xs[index - (c + 1)]? := by
  have : index - c = (index - (c + 1)) + 1 := by omega
  rw [this]; simp

theorem rtl_device_reset_loop_eq (kd : List rtlsdr_dongle_t) (index : Nat)
    (l : List libusb_device) (i0 c : Nat) (r : Int) (hc : c ≤ index)
    (h : c + l.length < 4294967296) :
    rtl_device_reset_loop kd index l i0 c r
      = reset_selected ((matching_from kd l i0)[index - c]?) i0 l.length r := by
  induction l generalizing i0 c with
  | nil => simp [rtl_device_reset_loop, matching_from, reset_selected, descriptor_reads]
  | cons d l ih =>
    simp only [List.length_cons] at h
    unfold rtl_device_reset_loop
    rw [matching_from_cons]
    have hm : (c + 1) % 4294967296 = c + 1 := by omega
    have hp : uint32_pred (c + 1) = c := by simp [uint32_pred]
    by_cases hk : known kd d = true
    · have hk2 : (find_known_device kd d.idVendor d.idProduct).isSome = true := hk
      simp only [hk2, hk, if_true, hm, hp]
      by_cases hi : index = c
      · subst hi
        by_cases ho : d.open_r = 0 <;>
          simp [reset_selected, ho, descriptor_reads]
      · simp only [hi, if_false]
        rw [ih (i0 + 1) (c + 1) (by omega) (by omega), getElem?_cons_sub _ _ _ _ (by omega)]
        cases hsel : (matching_from kd l (i0 + 1))[index - (c + 1)]? with
        | none => simp [reset_selected, descriptor_reads_succ]
        | some pd =>
          obtain ⟨p, dev⟩ := pd
          have hpos := (matching_from_pos kd l (i0 + 1) _ p dev hsel).1
          have e1 : p + 1 - i0 = (p + 1 - (i0 + 1)) + 1 := by omega
          by_cases ho : dev.open_r = 0 <;>
            simp [reset_selected, ho, e1, descriptor_reads_succ]
    · have hk2 : ¬ (find_known_device kd d.idVendor d.idProduct).isSome = true := hk
      simp only [hk2, hk, Bool.false_eq_true, ↓reduceIte]
      rw [ih (i0 + 1) c hc (by omega)]
      cases hsel : (matching_from kd l (i0 + 1))[index - c]? with
      | none => simp [reset_selected, descriptor_reads_succ]
      | some pd =>
        obtain ⟨p, dev⟩ := pd
        have hpos := (matching_from_pos kd l (i0 + 1) _ p dev hsel).1
        have e1 : p + 1 - i0 = (p + 1 - (i0 + 1)) + 1 := by omega
        by_cases ho : dev.open_r = 0 <;>
          simp [reset_selected, ho, e1, descriptor_reads_succ]

theorem rtlsdr_get_device_usb_strings_loop_eq (kd : List rtlsdr_dongle_t) (index : Nat)
    (out : Slots) (l : List libusb_device) (i0 c : Nat) (r : Int) (hc : c ≤ index)
    (h : c + l.length < 4294967296) :
    rtlsdr_get_device_usb_strings_loop kd index out l i0 c r
      = strings_selected out ((matching_from kd l i0)[index - c]?) i0 l.length r := by
  induction l generalizing i0 c with
  | nil => simp [rtlsdr_get_device_usb_strings_loop, matching_from, strings_selected,
      descriptor_reads]
  | cons d l ih =>
    simp only [List.length_cons] at h
    unfold rtlsdr_get_device_usb_strings_loop
    rw [matching_from_cons]
    have hm : (c + 1) % 4294967296 = c + 1 := by omega
    have hp : uint32_pred (c + 1) = c := by simp [uint32_pred]
    by_cases hk : known kd d = true
    · have hk2 : (find_known_device kd d.idVendor d.idProduct).isSome = true := hk
      simp only [hk2, hk, if_true, hm, hp]
      by_cases hi : index = c
      · subst hi
        by_cases ho : d.open_r = 0 <;>
          simp [strings_selected, ho, descriptor_reads]
      · simp only [hi, if_false]
        rw [ih (i0 + 1) (c + 1) (by omega) (by omega), getElem?_cons_sub _ _ _ _ (by omega)]
        cases hsel : (matching_from kd l (i0 + 1))[index - (c + 1)]? with
        | none => simp [strings_selected, descriptor_reads_succ]
        | some pd =>
          obtain ⟨p, dev⟩ := pd
          have hpos := (matching_from_pos kd l (i0 + 1) _ p dev hsel).1
          have e1 : p + 1 - i0 = (p + 1 - (i0 + 1)) + 1 := by omega
          by_cases ho : dev.open_r = 0 <;>
            simp [strings_selected, ho, e1, descriptor_reads_succ]
    · have hk2 : ¬ (find_known_device kd d.idVendor d.idProduct).isSome = true := hk
      simp only [hk2, hk, Bool.false_eq_true, ↓reduceIte]
      rw [ih (i0 + 1) c hc (by omega)]
      cases hsel : (matching_from kd l (i0 + 1))[index - c]? with
      | none => simp [strings_selected, descriptor_reads_succ]
      | some pd =>
        obtain ⟨p, dev⟩ := pd
        have hpos := (matching_from_pos kd l (i0 + 1) _ p dev hsel).1
        have e1 : p + 1 - i0 = (p + 1 - (i0 + 1)) + 1 := by omega
        by_cases ho : dev.open_r = 0 <;>
          simp [strings_selected, ho, e1, descriptor_reads_succ]

theorem rtlsdr_get_device_name_loop_eq (kd : List rtlsdr_dongle_t) (index : Nat)
    (l : List libusb_device) (i0 c : Nat) (device : Option Nat) (hc : c ≤ index)
    (h : c + l.length < 4294967296) (p : Nat) (dev : libusb_device)
    (hsel : (matching_from kd l i0)[index - c]? = some (p, dev)) :
    rtlsdr_get_device_name_loop kd index l i0 c device
      = (find_known_device kd dev.idVendor dev.idProduct, descriptor_reads i0 (p + 1 - i0)) := by
  induction l generalizing i0 c device with
  | nil => simp [matching_from] at hsel
  | cons d l ih =>
    simp only [List.length_cons] at h
    unfold rtlsdr_get_device_name_loop
    rw [matching_from_cons] at hsel
    have hm : (c + 1) % 4294967296 = c + 1 := by omega
    have hp : uint32_pred (c + 1) = c := by simp [uint32_pred]
    cases hf : find_known_device kd d.idVendor d.idProduct with
    | some k =>
      have hk : known kd d = true := by simp [known, hf]
      simp only [hk, if_true] at hsel
      simp only [hm, hp]
      by_cases hi : index = c
      · subst hi
        simp at hsel
        obtain ⟨rfl, rfl⟩ := hsel
        simp [hf, descriptor_reads]
      · simp only [hi, if_false]
        rw [getElem?_cons_sub _ _ _ _ (by omega)] at hsel
        have hpos := (matching_from_pos kd l (i0 + 1) _ p dev hsel).1
        have e1 : p + 1 - i0 = (p + 1 - (i0 + 1)) + 1 := by omega
        rw [ih (i0 + 1) (c + 1) (some k) (by omega) (by omega) hsel]
        simp [e1, descriptor_reads_succ]
    | none =>
      have hk : ¬ known kd d = true := by simp [known, hf]
      simp only [hk, if_false] at hsel
      simp only []
      have hpos := (matching_from_pos kd l (i0 + 1) _ p dev hsel).1
      have e1 : p + 1 - i0 = (p + 1 - (i0 + 1)) + 1 := by omega
      rw [ih (i0 + 1) c none hc (by omega) hsel]
      simp [e1, descriptor_reads_succ]

/-! ### The branches of the resolver -/
theorem device_count_int (kd : List rtlsdr_dongle_t) (usb : List libusb_device)
    (hlen : usb.length < 2147483648) :
    to_int ((rtlsdr_get_device_count kd usb).1 : Int) = ((matching kd usb).length : Int) := by
  rw [rtlsdr_get_device_count_eq kd usb (by omega)]
  have := matching_length_le kd usb
  exact to_int_of_range _ (by omega) (by omega)

theorem search_numeric (kd : List rtlsdr_dongle_t) (usb : List libusb_device)
    (s : CStr) (b0 : Locals)
    (h1 : to_int ((rtlsdr_get_device_count kd usb).1 : Int) ≠ 0)
    (h2 : (strtol s).2 = [] ∧ 0 ≤ to_int (strtol s).1
      ∧ to_int (strtol s).1 < to_int ((rtlsdr_get_device_count kd usb).1 : Int)) :
    verbose_device_search kd usb s b0
      = announce kd usb "Using device %d: %s\n" (to_int (strtol s).1)
          ([{ fmt := "Found %d device(s):\n",
              args := [Arg.d (to_int ((rtlsdr_get_device_count kd usb).1 : Int))] }]
            ++ (listing_loop kd usb
                (List.range (to_int ((rtlsdr_get_device_count kd usb).1 : Int)).toNat) b0).2.1
            ++ [{ fmt := "\n", args := [] }])
          ((rtlsdr_get_device_count kd usb).2
            ++ (listing_loop kd usb
                (List.range (to_int ((rtlsdr_get_device_count kd usb).1 : Int)).toNat) b0).2.2) := by
  unfold verbose_device_search
  rw [if_neg h1, if_pos h2]

/-! ### The device count without matching devices, and indices of serial strings -/

theorem rtlsdr_get_device_count_loop_none (kd : List rtlsdr_dongle_t) (l : List libusb_device)
    (i0 c : Nat) (h : ∀ dev ∈ l, find_known_device kd dev.idVendor dev.idProduct = none) :
    rtlsdr_get_device_count_loop kd l i0 c = (c, descriptor_reads i0 l.length) := by
  induction l generalizing i0 c with
  | nil => simp [rtlsdr_get_device_count_loop, descriptor_reads]
  | cons d l ih =>
    unfold rtlsdr_get_device_count_loop
    have hd := h d (List.mem_cons_self _ _)
    simp only [hd, Option.isSome_none, Bool.false_eq_true, ↓reduceIte]
    rw [ih (i0 + 1) c (fun dev hdev => h dev (List.mem_cons_of_mem _ hdev))]
    simp [descriptor_reads_succ]

theorem search_no_devices (kd : List rtlsdr_dongle_t) (usb : List libusb_device)
    (s : CStr) (b0 : Locals)
    (h1 : to_int ((rtlsdr_get_device_count kd usb).1 : Int) = 0) :
    verbose_device_search kd usb s b0
      = (-1, [{ fmt := "No supported devices found.\n", args := [] }],
         (rtlsdr_get_device_count kd usb).2) := by
  unfold verbose_device_search
  rw [if_pos h1]

theorem serials_getElem? (kd : List rtlsdr_dongle_t) (usb : List libusb_device) (i : Nat)
    (x : CStr) (h : ((matching kd usb).map (fun dev => dev.serial))[i]? = some x) :
    i < (matching kd usb).length ∧ serial_at kd usb i = x := by
  rw [List.getElem?_map] at h
  cases hd : (matching kd usb)[i]? with
  | none => simp [hd] at h
  | some dev =>
    simp [hd] at h
    exact ⟨(List.getElem?_eq_some_iff.mp hd).1, by simp [serial_at, hd, h]⟩

theorem serials_getElem?_of_lt (kd : List rtlsdr_dongle_t) (usb : List libusb_device) (i : Nat)
    (h : i < (matching kd usb).length) :
    ((matching kd usb).map (fun dev => dev.serial))[i]? = some (serial_at kd usb i) := by
  rw [List.getElem?_map, List.getElem?_eq_getElem h]
  simp [serial_at, List.getElem?_eq_getElem h]

theorem find_of_lowest_index (kd : List rtlsdr_dongle_t) (usb : List libusb_device)
    (P : CStr → Prop) [DecidablePred P] (i : Nat)
    (h : lowest_index P ((matching kd usb).map (fun dev => dev.serial)) i) :
    (List.range (matching kd usb).length).find? (fun j => decide (P (serial_at kd usb j)))
      = some i := by
  obtain ⟨⟨x, hx, hP⟩, hmin⟩ := h
  obtain ⟨hi, hxi⟩ := serials_getElem? kd usb i x hx
  rw [List.find?_range_eq_some]
  refine ⟨by simp [hxi, hP], List.mem_range.mpr hi, ?_⟩
  intro j hj
  have := hmin j hj _ (serials_getElem?_of_lt kd usb j (by omega))
  simp [this]

theorem find_of_no_match (kd : List rtlsdr_dongle_t) (usb : List libusb_device)
    (P : CStr → Prop) [DecidablePred P]
    (h : ∀ x ∈ (matching kd usb).map (fun dev => dev.serial), ¬ P x) :
    (List.range (matching kd usb).length).find? (fun j => decide (P (serial_at kd usb j)))
      = none := by
  rw [List.find?_range_eq_none]
  intro j hj
  have := h _ (List.getElem?_mem (serials_getElem?_of_lt kd usb j hj))
  simp [this]

theorem matching_of_matching_from (kd : List rtlsdr_dongle_t) (usb : List libusb_device)
    (i0 i p : Nat) (dev : libusb_device) (h : (matching_from kd usb i0)[i]? = some (p, dev)) :
    (matching kd usb)[i]? = some dev := by
  rw [← matching_from_map_snd kd usb i0, List.getElem?_map, h]
  rfl

/-! ### The serial tiers when every matching device can be read -/

theorem rtlsdr_get_device_usb_strings_eq (kd : List rtlsdr_dongle_t) (usb : List libusb_device)
    (index : Nat) (out : Slots) (hlen : usb.length < 4294967296) :
    rtlsdr_get_device_usb_strings kd usb index out
      = ((strings_selected out ((matching_from kd usb 0)[index]?) 0 usb.length (-2)).1,
         (strings_selected out ((matching_from kd usb 0)[index]?) 0 usb.length (-2)).2.1,
         [Call.libusb_init, Call.libusb_get_device_list]
          ++ (strings_selected out ((matching_from kd usb 0)[index]?) 0 usb.length (-2)).2.2
          ++ [Call.libusb_free_device_list, Call.libusb_exit]) := by
  unfold rtlsdr_get_device_usb_strings
  rw [rtlsdr_get_device_usb_strings_loop_eq kd index out usb 0 0 (-2) (Nat.zero_le _) (by omega)]
  rfl

theorem matching_from_of_matching (kd : List rtlsdr_dongle_t) (usb : List libusb_device)
    (i0 i : Nat) (dev : libusb_device) (h : (matching kd usb)[i]? = some dev) :
    ∃ p, (matching_from kd usb i0)[i]? = some (p, dev) := by
  rw [← matching_from_map_snd kd usb i0, List.getElem?_map] at h
  cases hm : (matching_from kd usb i0)[i]? with
  | none => simp [hm] at h
  | some pd =>
    obtain ⟨p, d⟩ := pd
    simp [hm] at h
    exact ⟨p, by rw [h]⟩

theorem read_strings_readable (kd : List rtlsdr_dongle_t) (usb : List libusb_device)
    (i : Nat) (b : Locals) (dev : libusb_device) (hlen : usb.length < 4294967296)
    (hdev : (matching kd usb)[i]? = some dev) (ho : dev.open_r = 0)
    (hd : 0 ≤ dev.descriptor_r) :
    (read_strings kd usb i b).1
      = { vendor := dev.manufacturer, product := dev.product, serial := dev.serial } := by
  obtain ⟨p, hp⟩ := matching_from_of_matching kd usb 0 i dev hdev
  have hi : i < 4294967296 := by
    have h1 := matching_length_le kd usb
    have h2 : i < (matching kd usb).length := (List.getElem?_eq_some_iff.mp hdev).1
    omega
  unfold read_strings
  rw [to_uint32_of_range i hi, rtlsdr_get_device_usb_strings_eq kd usb i _ hlen, hp]
  have hd2 : ¬ dev.descriptor_r < 0 := by omega
  simp [strings_selected, ho, libusb_get_usb_strings, hd2]

theorem serial_at_eq (kd : List rtlsdr_dongle_t) (usb : List libusb_device) (i : Nat)
    (dev : libusb_device) (hdev : (matching kd usb)[i]? = some dev) :
    serial_at kd usb i = dev.serial := by
  simp [serial_at, hdev]

theorem read_strings_serial (kd : List rtlsdr_dongle_t) (usb : List libusb_device)
    (hlen : usb.length < 4294967296)
    (hread : ∀ dev ∈ matching kd usb, dev.open_r = 0 ∧ 0 ≤ dev.descriptor_r)
    (i : Nat) (hi : i < (matching kd usb).length) (b : Locals) :
    (read_strings kd usb i b).1.serial = serial_at kd usb i := by
  have hdev : (matching kd usb)[i]? = some ((matching kd usb)[i]) := List.getElem?_eq_getElem hi
  have hmem : (matching kd usb)[i] ∈ matching kd usb := List.getElem_mem hi
  rw [read_strings_readable kd usb i b _ hlen hdev (hread _ hmem).1 (hread _ hmem).2,
    serial_at_eq kd usb i _ hdev]

theorem exact_loop_find (kd : List rtlsdr_dongle_t) (usb : List libusb_device) (s : CStr)
    (hlen : usb.length < 4294967296)
    (hread : ∀ dev ∈ matching kd usb, dev.open_r = 0 ∧ 0 ≤ dev.descriptor_r)
    (is : List Nat) (his : ∀ i ∈ is, i < (matching kd usb).length) (b : Locals) :
    (exact_loop kd usb s is b).1 = is.find? (fun i => decide (serial_at kd usb i = s)) := by
  induction is generalizing b with
  | nil => rfl
  | cons i is ih =>
    unfold exact_loop
    have hser := read_strings_serial kd usb hlen hread i (his i (List.mem_cons_self _ _)) b
    have his2 : ∀ j ∈ is, j < (matching kd usb).length :=
      fun j hj => his j (List.mem_cons_of_mem _ hj)
    by_cases hm : serial_at kd usb i = s
    · have : ¬ strcmp s (read_strings kd usb i b).1.serial ≠ 0 := by
        rw [hser, hm]; simp [strcmp_eq_zero_iff]
      rw [if_neg this]; simp [List.find?_cons, hm]
    · have : strcmp s (read_strings kd usb i b).1.serial ≠ 0 := by
        rw [hser]; intro h0; exact hm ((strcmp_eq_zero_iff _ _).mp h0).symm
      rw [if_pos this]; simp only [List.find?_cons, hm, decide_False]
      exact ih his2 _

theorem pfx_loop_find (kd : List rtlsdr_dongle_t) (usb : List libusb_device) (s : CStr)
    (hlen : usb.length < 4294967296)
    (hread : ∀ dev ∈ matching kd usb, dev.open_r = 0 ∧ 0 ≤ dev.descriptor_r)
    (is : List Nat) (his : ∀ i ∈ is, i < (matching kd usb).length) (b : Locals) :
    (pfx_loop kd usb s is b).1 = is.find? (fun i => decide (s <+: serial_at kd usb i)) := by
  induction is generalizing b with
  | nil => rfl
  | cons i is ih =>
    unfold pfx_loop
    have hser := read_strings_serial kd usb hlen hread i (his i (List.mem_cons_self _ _)) b
    have his2 : ∀ j ∈ is, j < (matching kd usb).length :=
      fun j hj => his j (List.mem_cons_of_mem _ hj)
    by_cases hm : s <+: serial_at kd usb i
    · have : ¬ strncmp s (read_strings kd usb i b).1.serial (strlen s) ≠ 0 := by
        rw [hser]; simp [strncmp_strlen_eq_zero_iff, hm]
      rw [if_neg this]; simp [List.find?_cons, hm]
    · have : strncmp s (read_strings kd usb i b).1.serial (strlen s) ≠ 0 := by
        rw [hser]; intro h0; exact hm ((strncmp_strlen_eq_zero_iff _ _).mp h0)
      rw [if_pos this]; simp only [List.find?_cons, hm, decide_False]
      exact ih his2 _

theorem sfx_test_iff (s serial : CStr) (hs : s.length < 2147483648)
    (ht : serial.length < 2147483648) :
    (¬ sfx_offset s serial < 0
      ∧ strncmp s (serial.drop (sfx_offset s serial).toNat) (strlen s) = 0) ↔ s <:+ serial := by
  rw [sfx_offset_eq s serial hs ht, strncmp_strlen_eq_zero_iff]
  constructor
  · rintro ⟨h1, h2⟩
    have hle : s.length ≤ serial.length := by omega
    have e : ((serial.length : Int) - (s.length : Int)).toNat = serial.length - s.length := by
      omega
    rw [e] at h2
    have hl : (serial.drop (serial.length - s.length)).length = s.length := by
      rw [List.length_drop]; omega
    have := h2.eq_of_length hl.symm
    rw [List.suffix_iff_eq_drop]
    exact this
  · intro h
    have hle : s.length ≤ serial.length := h.length_le
    have e : ((serial.length : Int) - (s.length : Int)).toNat = serial.length - s.length := by
      omega
    refine ⟨by omega, ?_⟩
    rw [e]
    rw [List.suffix_iff_eq_drop] at h
    rw [← h]

theorem serial_at_length (kd : List rtlsdr_dongle_t) (usb : List libusb_device)
    (hfit : ∀ dev ∈ matching kd usb, dev.serial.length ≤ 255) (i : Nat) :
    (serial_at kd usb i).length ≤ 255 := by
  unfold serial_at
  cases h : (matching kd usb)[i]? with
  | none => simp
  | some dev =>
    obtain ⟨hlt, rfl⟩ := List.getElem?_eq_some_iff.mp h
    exact hfit _ (List.getElem_mem hlt)

theorem sfx_loop_find (kd : List rtlsdr_dongle_t) (usb : List libusb_device) (s : CStr)
    (hlen : usb.length < 4294967296)
    (hread : ∀ dev ∈ matching kd usb, dev.open_r = 0 ∧ 0 ≤ dev.descriptor_r)
    (hfit : ∀ dev ∈ matching kd usb, dev.serial.length ≤ 255)
    (hs : s.length < 2147483648)
    (is : List Nat) (his : ∀ i ∈ is, i < (matching kd usb).length) (b : Locals) :
    (sfx_loop kd usb s is b).1 = is.find? (fun i => decide (s <:+ serial_at kd usb i)) := by
  induction is generalizing b with
  | nil => rfl
  | cons i is ih =>
    unfold sfx_loop
    have hser := read_strings_serial kd usb hlen hread i (his i (List.mem_cons_self _ _)) b
    have his2 : ∀ j ∈ is, j < (matching kd usb).length :=
      fun j hj => his j (List.mem_cons_of_mem _ hj)
    have hl := serial_at_length kd usb hfit i
    have hiff := sfx_test_iff s (serial_at kd usb i) hs (by omega)
    simp only [hser]
    by_cases hm : s <:+ serial_at kd usb i
    · obtain ⟨h1, h2⟩ := hiff.mpr hm
      rw [if_neg h1, if_neg (by simpa using h2)]
      simp [List.find?_cons, hm]
    · by_cases h1 : sfx_offset s (serial_at kd usb i) < 0
      · rw [if_pos h1]
        simp only [List.find?_cons, hm, decide_False]
        exact ih his2 _
      · have h2 : strncmp s ((serial_at kd usb i).drop (sfx_offset s (serial_at kd usb i)).toNat)
            (strlen s) ≠ 0 := fun h0 => hm (hiff.mp ⟨h1, h0⟩)
        rw [if_neg h1, if_pos h2]
        simp only [List.find?_cons, hm, decide_False]
        exact ih his2 _

theorem search_serial (kd : List rtlsdr_dongle_t) (usb : List libusb_device)
    (s : CStr) (b0 : Locals)
    (h1 : to_int ((rtlsdr_get_device_count kd usb).1 : Int) ≠ 0)
    (h2 : ¬ ((strtol s).2 = [] ∧ 0 ≤ to_int (strtol s).1
      ∧ to_int (strtol s).1 < to_int ((rtlsdr_get_device_count kd usb).1 : Int))) :
    verbose_device_search kd usb s b0
      = serial_tiers kd usb s
          (List.range (to_int ((rtlsdr_get_device_count kd usb).1 : Int)).toNat)
          (listing_loop kd usb
            (List.range (to_int ((rtlsdr_get_device_count kd usb).1 : Int)).toNat) b0).1
          ([{ fmt := "Found %d device(s):\n",
              args := [Arg.d (to_int ((rtlsdr_get_device_count kd usb).1 : Int))] }]
            ++ (listing_loop kd usb
                (List.range (to_int ((rtlsdr_get_device_count kd usb).1 : Int)).toNat) b0).2.1
            ++ [{ fmt := "\n", args := [] }])
          ((rtlsdr_get_device_count kd usb).2
            ++ (listing_loop kd usb
                (List.range (to_int ((rtlsdr_get_device_count kd usb).1 : Int)).toNat) b0).2.2) := by
  unfold verbose_device_search
  rw [if_neg h1, if_neg h2]

theorem serial_tiers_readable (kd : List rtlsdr_dongle_t) (usb : List libusb_device)
    (s : CStr) (b : Locals) (err : List Fprintf) (calls : List Call)
    (hlen : usb.length < 4294967296)
    (hread : ∀ dev ∈ matching kd usb, dev.open_r = 0 ∧ 0 ≤ dev.descriptor_r)
    (hfit : ∀ dev ∈ matching kd usb, dev.serial.length ≤ 255)
    (hs : s.length < 2147483648) :
    (serial_tiers kd usb s (List.range (matching kd usb).length) b err calls).1
      = first_serial_match (serial_at kd usb) (matching kd usb).length s := by
  have hr : ∀ i ∈ List.range (matching kd usb).length, i < (matching kd usb).length :=
    fun i hi => List.mem_range.mp hi
  unfold serial_tiers first_serial_match
  simp only [exact_loop_find kd usb s hlen hread _ hr, pfx_loop_find kd usb s hlen hread _ hr,
    sfx_loop_find kd usb s hlen hread hfit hs _ hr]
  cases h1 : (List.range (matching kd usb).length).find?
      (fun i => decide (serial_at kd usb i = s)) with
  | some i => rfl
  | none =>
    cases h2 : (List.range (matching kd usb).length).find?
        (fun i => decide (s <+: serial_at kd usb i)) with
    | some i => rfl
    | none =>
      cases h3 : (List.range (matching kd usb).length).find?
          (fun i => decide (s <:+ serial_at kd usb i)) with
      | some i => rfl
      | none => rfl

theorem search_readable (kd : List rtlsdr_dongle_t) (usb : List libusb_device)
    (s : CStr) (b0 : Locals) (hlen : usb.length < 2147483648)
    (hread : ∀ dev ∈ matching kd usb, dev.open_r = 0 ∧ 0 ≤ dev.descriptor_r)
    (hfit : ∀ dev ∈ matching kd usb, dev.serial.length ≤ 255)
    (hs : s.length < 2147483648)
    (hne : matching kd usb ≠ [])
    (hnum : ¬ ((strtol s).2 = [] ∧ 0 ≤ to_int (strtol s).1
      ∧ to_int (strtol s).1 < ((matching kd usb).length : Int))) :
    (verbose_device_search kd usb s b0).1
      = first_serial_match (serial_at kd usb) (matching kd usb).length s := by
  have hc := device_count_int kd usb hlen
  have hpos : 0 < (matching kd usb).length := List.length_pos.mpr hne
  rw [search_serial kd usb s b0 (by rw [hc]; omega) (by rw [hc]; exact hnum), hc, Int.toNat_ofNat]
  exact serial_tiers_readable kd usb s _ _ _ (by omega) hread hfit hs

/-! ### What a call log opens and resets -/

theorem opened_append (a b : List Call) : opened (a ++ b) = opened a ++ opened b := by
  simp [opened, List.filterMap_append]

theorem resets_append (a b : List Call) : resets (a ++ b) = resets a ++ resets b := by
  simp [resets, List.filterMap_append]

theorem opened_descriptor_reads (i0 n : Nat) : opened (descriptor_reads i0 n) = [] := by
  induction n generalizing i0 with
  | zero => simp [descriptor_reads, opened]
  | succ n ih =>
    rw [descriptor_reads_succ]
    have := ih (i0 + 1)
    simp only [opened] at this ⊢
    simp [List.filterMap_cons, this]

theorem resets_descriptor_reads (i0 n : Nat) : resets (descriptor_reads i0 n) = [] := by
  induction n generalizing i0 with
  | zero => simp [descriptor_reads, resets]
  | succ n ih =>
    rw [descriptor_reads_succ]
    have := ih (i0 + 1)
    simp only [resets] at this ⊢
    simp [List.filterMap_cons, this]

theorem opened_libusb_get_usb_strings (dev : libusb_device) (i : Nat) (out : Slots) :
    opened (libusb_get_usb_strings dev i out).2.2 = [] := by
  unfold libusb_get_usb_strings
  split
  · simp [opened]
  · cases out.manufact <;> cases out.product <;> cases out.serial <;> simp [opened]

theorem resets_libusb_get_usb_strings (dev : libusb_device) (i : Nat) (out : Slots) :
    resets (libusb_get_usb_strings dev i out).2.2 = [] := by
  unfold libusb_get_usb_strings
  split
  · simp [resets]
  · cases out.manufact <;> cases out.product <;> cases out.serial <;> simp [resets]

theorem rtl_device_reset_eq (kd : List rtlsdr_dongle_t) (usb : List libusb_device)
    (index : Nat) (hlen : usb.length < 4294967296) :
    rtl_device_reset kd usb index
      = ((reset_selected ((matching_from kd usb 0)[index]?) 0 usb.length (-2)).1,
         [Call.libusb_init, Call.libusb_get_device_list]
          ++ (reset_selected ((matching_from kd usb 0)[index]?) 0 usb.length (-2)).2
          ++ [Call.libusb_free_device_list, Call.libusb_exit]) := by
  unfold rtl_device_reset
  rw [rtl_device_reset_loop_eq kd index usb 0 0 (-2) (Nat.zero_le _) (by omega)]
  rfl

theorem rtlsdr_get_device_name_eq (kd : List rtlsdr_dongle_t) (usb : List libusb_device)
    (index : Nat) (hlen : usb.length < 4294967296) (p : Nat) (dev : libusb_device)
    (hsel : (matching_from kd usb 0)[index]? = some (p, dev)) :
    rtlsdr_get_device_name kd usb index
      = (entry_name kd dev,
         [Call.libusb_init, Call.libusb_get_device_list] ++ descriptor_reads 0 (p + 1)
          ++ [Call.libusb_free_device_list, Call.libusb_exit]) := by
  unfold rtlsdr_get_device_name
  rw [rtlsdr_get_device_name_loop_eq kd index usb 0 0 none (Nat.zero_le _) (by omega) p dev
    (by simpa using hsel)]
  rfl

theorem opened_reset_selected (sel : Option (Nat × libusb_device)) (i0 n : Nat) (r : Int) :
    opened (reset_selected sel i0 n r).2 = (sel.map Prod.fst).toList := by
  cases sel with
  | none => simp [reset_selected, opened_descriptor_reads]
  | some pd =>
    obtain ⟨p, dev⟩ := pd
    by_cases ho : dev.open_r = 0 <;>
      simp [reset_selected, ho, opened_append, opened_descriptor_reads] <;> simp [opened]

theorem resets_reset_selected (sel : Option (Nat × libusb_device)) (i0 n : Nat) (r : Int) :
    resets (reset_selected sel i0 n r).2
      = ((sel.filter (fun pd => decide (pd.2.open_r = 0))).map Prod.fst).toList := by
  cases sel with
  | none => simp [reset_selected, resets_descriptor_reads]
  | some pd =>
    obtain ⟨p, dev⟩ := pd
    by_cases ho : dev.open_r = 0 <;>
      simp [reset_selected, ho, resets_append, resets_descriptor_reads, Option.filter] <;>
      simp [resets]

theorem opened_strings_selected (out : Slots) (sel : Option (Nat × libusb_device))
    (i0 n : Nat) (r : Int) :
    opened (strings_selected out sel i0 n r).2.2 = (sel.map Prod.fst).toList := by
  cases sel with
  | none => simp [strings_selected, opened_descriptor_reads]
  | some pd =>
    obtain ⟨p, dev⟩ := pd
    have h1 : ∀ cs, opened (Call.libusb_open p :: cs) = p :: opened cs := fun _ => rfl
    have h2 : opened [Call.libusb_close p] = [] := rfl
    have h3 : opened [] = [] := rfl
    by_cases ho : dev.open_r = 0 <;>
      simp [strings_selected, ho, opened_append, opened_descriptor_reads,
        opened_libusb_get_usb_strings, h1, h2, h3]

theorem opened_frame (calls : List Call) :
    opened ([Call.libusb_init, Call.libusb_get_device_list] ++ calls
      ++ [Call.libusb_free_device_list, Call.libusb_exit]) = opened calls := by
  simp [opened]

theorem resets_frame (calls : List Call) :
    resets ([Call.libusb_init, Call.libusb_get_device_list] ++ calls
      ++ [Call.libusb_free_device_list, Call.libusb_exit]) = resets calls := by
  simp [resets]

theorem matching_from_none_iff (kd : List rtlsdr_dongle_t) (usb : List libusb_device)
    (i0 index : Nat) :
    (matching_from kd usb i0)[index]? = none ↔ (matching kd usb).length ≤ index := by
  rw [List.getElem?_eq_none_iff, matching_from_length]

/-! ### The resolver issues no reset -/

theorem resets_cons_descriptor (i : Nat) (cs : List Call) :
    resets (Call.libusb_get_device_descriptor i :: cs) = resets cs := rfl

theorem resets_nil : resets [] = [] := rfl

theorem resets_rtlsdr_get_device_count_loop (kd : List rtlsdr_dongle_t)
    (l : List libusb_device) (i0 c : Nat) :
    resets (rtlsdr_get_device_count_loop kd l i0 c).2 = [] := by
  induction l generalizing i0 c with
  | nil => rfl
  | cons d l ih =>
    unfold rtlsdr_get_device_count_loop
    simp only [resets_cons_descriptor]
    exact ih _ _

theorem resets_rtlsdr_get_device_count (kd : List rtlsdr_dongle_t) (usb : List libusb_device) :
    resets (rtlsdr_get_device_count kd usb).2 = [] := by
  unfold rtlsdr_get_device_count
  simp only [resets_frame]
  exact resets_rtlsdr_get_device_count_loop kd usb 0 0

theorem resets_rtlsdr_get_device_name_loop (kd : List rtlsdr_dongle_t) (index : Nat)
    (l : List libusb_device) (i0 c : Nat) (device : Option Nat) :
    resets (rtlsdr_get_device_name_loop kd index l i0 c device).2 = [] := by
  induction l generalizing i0 c device with
  | nil => rfl
  | cons d l ih =>
    unfold rtlsdr_get_device_name_loop
    split
    · split
      · rfl
      · simp only [resets_cons_descriptor]
        exact ih _ _ _
    · simp only [resets_cons_descriptor]
      exact ih _ _ _

theorem resets_rtlsdr_get_device_name (kd : List rtlsdr_dongle_t) (usb : List libusb_device)
    (index : Nat) : resets (rtlsdr_get_device_name kd usb index).2 = [] := by
  unfold rtlsdr_get_device_name
  simp only [resets_frame]
  exact resets_rtlsdr_get_device_name_loop kd index usb 0 0 none

theorem resets_rtlsdr_get_device_usb_strings_loop (kd : List rtlsdr_dongle_t) (index : Nat)
    (out : Slots) (l : List libusb_device) (i0 c : Nat) (r : Int) :
    resets (rtlsdr_get_device_usb_strings_loop kd index out l i0 c r).2.2 = [] := by
  induction l generalizing i0 c with
  | nil => rfl
  | cons d l ih =>
    unfold rtlsdr_get_device_usb_strings_loop
    split
    · split
      · split
        · simp only [resets_append, resets_libusb_get_usb_strings]
          rfl
        · rfl
      · simp only [resets_cons_descriptor]
        exact ih _ _
    · simp only [resets_cons_descriptor]
      exact ih _ _

theorem resets_rtlsdr_get_device_usb_strings (kd : List rtlsdr_dongle_t)
    (usb : List libusb_device) (index : Nat) (out : Slots) :
    resets (rtlsdr_get_device_usb_strings kd usb index out).2.2 = [] := by
  unfold rtlsdr_get_device_usb_strings
  simp only [resets_frame]
  exact resets_rtlsdr_get_device_usb_strings_loop kd index out usb 0 0 (-2)

theorem resets_read_strings (kd : List rtlsdr_dongle_t) (usb : List libusb_device)
    (i : Nat) (b : Locals) : resets (read_strings kd usb i b).2 = [] := by
  unfold read_strings
  exact resets_rtlsdr_get_device_usb_strings kd usb _ _

theorem resets_listing_loop (kd : List rtlsdr_dongle_t) (usb : List libusb_device)
    (is : List Nat) (b : Locals) : resets (listing_loop kd usb is b).2.2 = [] := by
  induction is generalizing b with
  | nil => rfl
  | cons i is ih =>
    unfold listing_loop
    simp only [resets_append, resets_read_strings, ih, List.append_nil]

theorem resets_exact_loop (kd : List rtlsdr_dongle_t) (usb : List libusb_device) (s : CStr)
    (is : List Nat) (b : Locals) : resets (exact_loop kd usb s is b).2.2 = [] := by
  induction is generalizing b with
  | nil => rfl
  | cons i is ih =>
    unfold exact_loop
    by_cases h : strcmp s (read_strings kd usb i b).1.serial ≠ 0
    · rw [if_pos h]
      simp only [resets_append, resets_read_strings, ih, List.append_nil]
    · rw [if_neg h]
      exact resets_read_strings kd usb i b

theorem resets_pfx_loop (kd : List rtlsdr_dongle_t) (usb : List libusb_device) (s : CStr)
    (is : List Nat) (b : Locals) : resets (pfx_loop kd usb s is b).2.2 = [] := by
  induction is generalizing b with
  | nil => rfl
  | cons i is ih =>
    unfold pfx_loop
    by_cases h : strncmp s (read_strings kd usb i b).1.serial (strlen s) ≠ 0
    · rw [if_pos h]
      simp only [resets_append, resets_read_strings, ih, List.append_nil]
    · rw [if_neg h]
      exact resets_read_strings kd usb i b

theorem resets_sfx_loop (kd : List rtlsdr_dongle_t) (usb : List libusb_device) (s : CStr)
    (is : List Nat) (b : Locals) : resets (sfx_loop kd usb s is b).2.2 = [] := by
  induction is generalizing b with
  | nil => rfl
  | cons i is ih =>
    unfold sfx_loop
    by_cases h : sfx_offset s (read_strings kd usb i b).1.serial < 0
    · rw [if_pos h]
      simp only [resets_append, resets_read_strings, ih, List.append_nil]
    · rw [if_neg h]
      by_cases h2 : strncmp s ((read_strings kd usb i b).1.serial.drop
          (sfx_offset s (read_strings kd usb i b).1.serial).toNat) (strlen s) ≠ 0
      · rw [if_pos h2]
        simp only [resets_append, resets_read_strings, ih, List.append_nil]
      · rw [if_neg h2]
        exact resets_read_strings kd usb i b

theorem resets_announce (kd : List rtlsdr_dongle_t) (usb : List libusb_device) (fmt : String)
    (device : Int) (err : List Fprintf) (calls : List Call) :
    resets (announce kd usb fmt device err calls).2.2 = resets calls := by
  unfold announce
  simp only [resets_append, resets_rtlsdr_get_device_name, List.append_nil]

theorem resets_serial_tiers (kd : List rtlsdr_dongle_t) (usb : List libusb_device) (s : CStr)
    (idx : List Nat) (b : Locals) (err : List Fprintf) (calls : List Call) :
    resets (serial_tiers kd usb s idx b err calls).2.2 = resets calls := by
  unfold serial_tiers
  cases he : (exact_loop kd usb s idx b).1 with
  | some i =>
    simp only [he, resets_announce, resets_append, resets_exact_loop, List.append_nil]
  | none =>
    simp only [he]
    cases hp : (pfx_loop kd usb s idx (exact_loop kd usb s idx b).2.1).1 with
    | some i =>
      simp only [hp, resets_announce, resets_append, resets_exact_loop, resets_pfx_loop,
        List.append_nil]
    | none =>
      simp only [hp]
      cases hx : (sfx_loop kd usb s idx
          (pfx_loop kd usb s idx (exact_loop kd usb s idx b).2.1).2.1).1 with
      | some i =>
        simp only [hx, resets_announce, resets_append, resets_exact_loop, resets_pfx_loop,
          resets_sfx_loop, List.append_nil]
      | none =>
        simp only [hx, resets_append, resets_exact_loop, resets_pfx_loop, resets_sfx_loop,
          List.append_nil]

theorem resets_verbose_device_search (kd : List rtlsdr_dongle_t) (usb : List libusb_device)
    (s : CStr) (b0 : Locals) : resets (verbose_device_search kd usb s b0).2.2 = [] := by
  by_cases h1 : to_int ((rtlsdr_get_device_count kd usb).1 : Int) = 0
  · rw [search_no_devices kd usb s b0 h1]
    exact resets_rtlsdr_get_device_count kd usb
  · by_cases h2 : (strtol s).2 = [] ∧ 0 ≤ to_int (strtol s).1
        ∧ to_int (strtol s).1 < to_int ((rtlsdr_get_device_count kd usb).1 : Int)
    · rw [search_numeric kd usb s b0 h1 h2]
      simp only [resets_announce, resets_append, resets_rtlsdr_get_device_count,
        resets_listing_loop, List.append_nil]
    · rw [search_serial kd usb s b0 h1 h2]
      simp only [resets_serial_tiers, resets_append, resets_rtlsdr_get_device_count,
        resets_listing_loop, List.append_nil]

/-! ### The range of the value the resolver returns -/

theorem numeric_result (kd : List rtlsdr_dongle_t) (usb : List libusb_device)
    (s : CStr) (b0 : Locals) (n : Int) (hlen : usb.length < 2147483648)
    (hs : strtol s = (n, [])) (h0 : 0 ≤ n) (hn : n < ((matching kd usb).length : Int)) :
    (verbose_device_search kd usb s b0).1 = n := by
  have hc := device_count_int kd usb hlen
  have hle := matching_length_le kd usb
  have hn2 : to_int n = n := to_int_of_range n (by omega) (by omega)
  rw [search_numeric kd usb s b0 (by rw [hc]; omega)
    (by rw [hc, hs]; simp only [hn2]; exact ⟨trivial, h0, hn⟩)]
  simp only [announce, hs, hn2]

theorem exact_loop_mem (kd : List rtlsdr_dongle_t) (usb : List libusb_device) (s : CStr)
    (is : List Nat) (b : Locals) (i : Nat) (h : (exact_loop kd usb s is b).1 = some i) :
    i ∈ is := by
  induction is generalizing b with
  | nil => simp [exact_loop] at h
  | cons j is ih =>
    unfold exact_loop at h
    by_cases hc : strcmp s (read_strings kd usb j b).1.serial ≠ 0
    · rw [if_pos hc] at h
      exact List.mem_cons_of_mem _ (ih _ h)
    · rw [if_neg hc] at h
      simp only [Option.some.injEq] at h
      rw [← h]
      exact List.mem_cons_self _ _

theorem pfx_loop_mem (kd : List rtlsdr_dongle_t) (usb : List libusb_device) (s : CStr)
    (is : List Nat) (b : Locals) (i : Nat) (h : (pfx_loop kd usb s is b).1 = some i) :
    i ∈ is := by
  induction is generalizing b with
  | nil => simp [pfx_loop] at h
  | cons j is ih =>
    unfold pfx_loop at h
    by_cases hc : strncmp s (read_strings kd usb j b).1.serial (strlen s) ≠ 0
    · rw [if_pos hc] at h
      exact List.mem_cons_of_mem _ (ih _ h)
    · rw [if_neg hc] at h
      simp only [Option.some.injEq] at h
      rw [← h]
      exact List.mem_cons_self _ _

theorem sfx_loop_mem (kd : List rtlsdr_dongle_t) (usb : List libusb_device) (s : CStr)
    (is : List Nat) (b : Locals) (i : Nat) (h : (sfx_loop kd usb s is b).1 = some i) :
    i ∈ is := by
  induction is generalizing b with
  | nil => simp [sfx_loop] at h
  | cons j is ih =>
    unfold sfx_loop at h
    by_cases hc : sfx_offset s (read_strings kd usb j b).1.serial < 0
    · rw [if_pos hc] at h
      exact List.mem_cons_of_mem _ (ih _ h)
    · rw [if_neg hc] at h
      by_cases h2 : strncmp s ((read_strings kd usb j b).1.serial.drop
          (sfx_offset s (read_strings kd usb j b).1.serial).toNat) (strlen s) ≠ 0
      · rw [if_pos h2] at h
        exact List.mem_cons_of_mem _ (ih _ h)
      · rw [if_neg h2] at h
        simp only [Option.some.injEq] at h
        rw [← h]
        exact List.mem_cons_self _ _

theorem serial_tiers_result (kd : List rtlsdr_dongle_t) (usb : List libusb_device) (s : CStr)
    (idx : List Nat) (b : Locals) (err : List Fprintf) (calls : List Call) :
    (serial_tiers kd usb s idx b err calls).1 = -1
      ∨ ∃ i ∈ idx, (serial_tiers kd usb s idx b err calls).1 = (i : Int) := by
  unfold serial_tiers
  cases he : (exact_loop kd usb s idx b).1 with
  | some i =>
    simp only [he]
    exact Or.inr ⟨i, exact_loop_mem kd usb s idx b i he, rfl⟩
  | none =>
    simp only [he]
    cases hp : (pfx_loop kd usb s idx (exact_loop kd usb s idx b).2.1).1 with
    | some i =>
      simp only [hp]
      exact Or.inr ⟨i, pfx_loop_mem kd usb s idx _ i hp, rfl⟩
    | none =>
      simp only [hp]
      cases hx : (sfx_loop kd usb s idx
          (pfx_loop kd usb s idx (exact_loop kd usb s idx b).2.1).2.1).1 with
      | some i =>
        simp only [hx]
        exact Or.inr ⟨i, sfx_loop_mem kd usb s idx _ i hx, rfl⟩
      | none =>
        exact Or.inl (by simp only [hx])

theorem to_int_lt (n : Int) : to_int n < 2147483648 := by
  unfold to_int
  split <;> omega

theorem search_result_range (kd : List rtlsdr_dongle_t) (usb : List libusb_device)
    (s : CStr) (b0 : Locals) :
    (verbose_device_search kd usb s b0).1 = -1
      ∨ (0 ≤ (verbose_device_search kd usb s b0).1
          ∧ (verbose_device_search kd usb s b0).1
              < to_int ((rtlsdr_get_device_count kd usb).1 : Int)) := by
  by_cases h1 : to_int ((rtlsdr_get_device_count kd usb).1 : Int) = 0
  · rw [search_no_devices kd usb s b0 h1]
    exact Or.inl rfl
  · by_cases h2 : (strtol s).2 = [] ∧ 0 ≤ to_int (strtol s).1
        ∧ to_int (strtol s).1 < to_int ((rtlsdr_get_device_count kd usb).1 : Int)
    · rw [search_numeric kd usb s b0 h1 h2]
      exact Or.inr ⟨h2.2.1, h2.2.2⟩
    · rw [search_serial kd usb s b0 h1 h2]
      rcases serial_tiers_result kd usb s
          (List.range (to_int ((rtlsdr_get_device_count kd usb).1 : Int)).toNat)
          (listing_loop kd usb
            (List.range (to_int ((rtlsdr_get_device_count kd usb).1 : Int)).toNat) b0).1
          ([{ fmt := "Found %d device(s):\n",
              args := [Arg.d (to_int ((rtlsdr_get_device_count kd usb).1 : Int))] }]
            ++ (listing_loop kd usb
                (List.range (to_int ((rtlsdr_get_device_count kd usb).1 : Int)).toNat) b0).2.1
            ++ [{ fmt := "\n", args := [] }])
          ((rtlsdr_get_device_count kd usb).2
            ++ (listing_loop kd usb
                (List.range (to_int ((rtlsdr_get_device_count kd usb).1 : Int)).toNat) b0).2.2)
        with h | ⟨i, hi, h⟩
      · exact Or.inl h
      · refine Or.inr ?_
        rw [h]
        have := List.mem_range.mp hi
        omega

theorem search_index_uint32 (kd : List rtlsdr_dongle_t) (usb : List libusb_device)
    (s : CStr) (b0 : Locals) (h : 0 ≤ (verbose_device_search kd usb s b0).1) :
    to_uint32 (verbose_device_search kd usb s b0).1
      = (verbose_device_search kd usb s b0).1.toNat := by
  have hlt := to_int_lt ((rtlsdr_get_device_count kd usb).1 : Int)
  rcases search_result_range kd usb s b0 with h1 | ⟨_, h2⟩
  · omega
  · unfold to_uint32
    omega

/-! ### The entry point unfolded -/

theorem main_after_getopt_given (kd : List rtlsdr_dongle_t) (usb : List libusb_device)
    (stack : Nat → Locals) (st : MainState) (h : st.devGiven = 1) :
    main_after_getopt kd usb stack st
      = if st.devIndex < 0 then (Outcome.returned (-ENODEV), st.err, st.calls)
        else (Outcome.returned (rtl_device_reset kd usb (to_uint32 st.devIndex)).1, st.err,
          st.calls ++ (rtl_device_reset kd usb (to_uint32 st.devIndex)).2) := by
  have hne : ¬ st.devGiven = 0 := by rw [h]; decide
  unfold main_after_getopt
  rw [if_neg hne]
  simp only [List.append_nil]

theorem main_after_getopt_default (kd : List rtlsdr_dongle_t) (usb : List libusb_device)
    (stack : Nat → Locals) (st : MainState) (h : st.devGiven = 0) :
    main_after_getopt kd usb stack st
      = if (verbose_device_search kd usb "0".toList (stack st.searches)).1 < 0 then
          (Outcome.returned (-ENODEV),
            st.err ++ (verbose_device_search kd usb "0".toList (stack st.searches)).2.1,
            st.calls ++ (verbose_device_search kd usb "0".toList (stack st.searches)).2.2)
        else
          (Outcome.returned (rtl_device_reset kd usb
              (to_uint32 (verbose_device_search kd usb "0".toList (stack st.searches)).1)).1,
            st.err ++ (verbose_device_search kd usb "0".toList (stack st.searches)).2.1,
            st.calls ++ (verbose_device_search kd usb "0".toList (stack st.searches)).2.2
              ++ (rtl_device_reset kd usb
                (to_uint32 (verbose_device_search kd usb "0".toList (stack st.searches)).1)).2) := by
  unfold main_after_getopt
  rw [if_pos h]

theorem main_default_eq (kd : List rtlsdr_dongle_t) (usb : List libusb_device)
    (stack : Nat → Locals) :
    main kd usb stack []
      = if (verbose_device_search kd usb "0".toList (stack 0)).1 < 0 then
          (Outcome.returned (-ENODEV), (verbose_device_search kd usb "0".toList (stack 0)).2.1,
            (verbose_device_search kd usb "0".toList (stack 0)).2.2)
        else
          (Outcome.returned (rtl_device_reset kd usb
              (to_uint32 (verbose_device_search kd usb "0".toList (stack 0)).1)).1,
            (verbose_device_search kd usb "0".toList (stack 0)).2.1,
            (verbose_device_search kd usb "0".toList (stack 0)).2.2
              ++ (rtl_device_reset kd usb
                (to_uint32 (verbose_device_search kd usb "0".toList (stack 0)).1)).2) := by
  have h := main_after_getopt_default kd usb stack
    { devGiven := 0, devIndex := 0, searches := 0, err := [], calls := [] } rfl
  have e1 : ({ devGiven := 0, devIndex := 0, searches := 0, err := [], calls := [] }
      : MainState).searches = 0 := rfl
  have e2 : ({ devGiven := 0, devIndex := 0, searches := 0, err := [], calls := [] }
      : MainState).err = [] := rfl
  have e3 : ({ devGiven := 0, devIndex := 0, searches := 0, err := [], calls := [] }
      : MainState).calls = [] := rfl
  rw [e1, e2, e3] at h
  generalize verbose_device_search kd usb "0".toList (stack 0) = v at h
  rw [List.nil_append, List.nil_append] at h
  unfold main
  rw [getopt_loop]
  exact h

theorem main_single_eq (kd : List rtlsdr_dongle_t) (usb : List libusb_device)
    (stack : Nat → Locals) (a : CStr) :
    main kd usb stack [Opt.d a]
      = if (verbose_device_search kd usb a (stack 0)).1 < 0 then
          (Outcome.returned (-ENODEV), (verbose_device_search kd usb a (stack 0)).2.1,
            (verbose_device_search kd usb a (stack 0)).2.2)
        else
          (Outcome.returned (rtl_device_reset kd usb
              (to_uint32 (verbose_device_search kd usb a (stack 0)).1)).1,
            (verbose_device_search kd usb a (stack 0)).2.1,
            (verbose_device_search kd usb a (stack 0)).2.2
              ++ (rtl_device_reset kd usb
                (to_uint32 (verbose_device_search kd usb a (stack 0)).1)).2) := by
  have e1 : ({ devGiven := 0, devIndex := 0, searches := 0, err := [], calls := [] }
      : MainState).searches = 0 := rfl
  have e2 : ({ devGiven := 0, devIndex := 0, searches := 0, err := [], calls := [] }
      : MainState).err = [] := rfl
  have e3 : ({ devGiven := 0, devIndex := 0, searches := 0, err := [], calls := [] }
      : MainState).calls = [] := rfl
  unfold main
  rw [getopt_loop, getopt_loop, e1, e2, e3]
  generalize verbose_device_search kd usb a (stack 0) = v
  rw [List.nil_append, List.nil_append]
  have h := main_after_getopt_given kd usb stack
    { devGiven := 1, devIndex := v.1, searches := 0 + 1, err := v.2.1, calls := v.2.2 } rfl
  have e4 : (⟨1, v.1, 0 + 1, v.2.1, v.2.2⟩ : MainState).devIndex = v.1 := rfl
  have e5 : (⟨1, v.1, 0 + 1, v.2.1, v.2.2⟩ : MainState).err = v.2.1 := rfl
  have e6 : (⟨1, v.1, 0 + 1, v.2.1, v.2.2⟩ : MainState).calls = v.2.2 := rfl
  rw [e4, e5, e6] at h
  show main_after_getopt kd usb stack
    { devGiven := 1, devIndex := v.1, searches := 0 + 1, err := v.2.1, calls := v.2.2 } = _
  exact h

theorem main_at_most_one_d (kd : List rtlsdr_dongle_t) (usb : List libusb_device)
    (stack : Nat → Locals) (sel : Option CStr) :
    main kd usb stack (at_most_one_d sel)
      = if (verbose_device_search kd usb (selector_of sel) (stack 0)).1 < 0 then
          (Outcome.returned (-ENODEV),
            (verbose_device_search kd usb (selector_of sel) (stack 0)).2.1,
            (verbose_device_search kd usb (selector_of sel) (stack 0)).2.2)
        else
          (Outcome.returned (rtl_device_reset kd usb
              (to_uint32 (verbose_device_search kd usb (selector_of sel) (stack 0)).1)).1,
            (verbose_device_search kd usb (selector_of sel) (stack 0)).2.1,
            (verbose_device_search kd usb (selector_of sel) (stack 0)).2.2
              ++ (rtl_device_reset kd usb
                (to_uint32 (verbose_device_search kd usb (selector_of sel) (stack 0)).1)).2) := by
  cases sel with
  | none => exact main_default_eq kd usb stack
  | some a => exact main_single_eq kd usb stack a

/-! ## The claims -/

/-- C1: a selector that `strtol` (base 0) consumes completely, with a value `n`
in `[0, deviceCount)`, resolves to `n`, whatever the serial strings of the
devices are. -/
theorem numeric_selector_wins (kd : List rtlsdr_dongle_t) (usb : List libusb_device)
    (s : CStr) (b0 : Locals) (n : Int) (hlen : usb.length < 2147483648)
    (hs : strtol s = (n, [])) (h0 : 0 ≤ n) (hn : n < ((matching kd usb).length : Int)) :
    (verbose_device_search kd usb s b0).1 = n :=
  numeric_result kd usb s b0 n hlen hs h0 hn

/-- The first of two dongles carries the serial "1"; the selector "1" still
resolves to index 1. -/
theorem numeric_selector_wins_witness :
    (verbose_device_search spec_table [dongle "1" 0, hub, dongle "2" 0] "1".toList zeroed).1
      = 1 :=
  numeric_selector_wins spec_table [dongle "1" 0, hub, dongle "2" 0] "1".toList zeroed 1
    (by decide) (by decide) (by decide) (by decide)

/-- C2 (amended): when every matching device can be opened and read, and the
selector is not fully numeric or its value lies within the range of `int` but
outside `[0, deviceCount)`, the resolver returns the lowest index whose serial
equals the selector if there is one; otherwise the lowest index whose serial
starts with the selector if there is one; otherwise the lowest index whose
serial ends with it if there is one. -/
theorem serial_tiers_lowest_index (kd : List rtlsdr_dongle_t) (usb : List libusb_device)
    (s : CStr) (b0 : Locals) (hlen : usb.length < 2147483648)
    (hread : ∀ dev ∈ matching kd usb, dev.open_r = 0 ∧ 0 ≤ dev.descriptor_r)
    (hfit : ∀ dev ∈ matching kd usb, dev.serial.length ≤ 255)
    (hs : s.length < 2147483648)
    (hne : matching kd usb ≠ [])
    (hnum : (strtol s).2 ≠ []
      ∨ (-2147483648 ≤ (strtol s).1 ∧ (strtol s).1 < 0)
      ∨ (((matching kd usb).length : Int) ≤ (strtol s).1 ∧ (strtol s).1 < 2147483648)) :
    (∀ i, lowest_index (fun x => x = s) ((matching kd usb).map (fun dev => dev.serial)) i →
        (verbose_device_search kd usb s b0).1 = i)
    ∧ ((∀ x ∈ (matching kd usb).map (fun dev => dev.serial), x ≠ s) →
        ∀ i, lowest_index (fun x => s <+: x) ((matching kd usb).map (fun dev => dev.serial)) i →
          (verbose_device_search kd usb s b0).1 = i)
    ∧ ((∀ x ∈ (matching kd usb).map (fun dev => dev.serial), x ≠ s) →
        (∀ x ∈ (matching kd usb).map (fun dev => dev.serial), ¬ s <+: x) →
        ∀ i, lowest_index (fun x => s <:+ x) ((matching kd usb).map (fun dev => dev.serial)) i →
          (verbose_device_search kd usb s b0).1 = i) := by
  have hnum2 : ¬ ((strtol s).2 = [] ∧ 0 ≤ to_int (strtol s).1
      ∧ to_int (strtol s).1 < ((matching kd usb).length : Int)) := by
    rintro ⟨h1, h2, h3⟩
    rcases hnum with h | ⟨ha, hb⟩ | ⟨ha, hb⟩
    · exact h h1
    · rw [to_int_of_range _ ha (by omega)] at h2; omega
    · rw [to_int_of_range _ (by omega) hb] at h3; omega
  have hres := search_readable kd usb s b0 hlen hread hfit hs hne hnum2
  refine ⟨?_, ?_, ?_⟩
  · intro i hi
    rw [hres, first_serial_match, find_of_lowest_index kd usb (fun x => x = s) i hi]
  · intro h1 i hi
    rw [hres, first_serial_match, find_of_no_match kd usb (fun x => x = s) h1]
    simp only []
    rw [find_of_lowest_index kd usb (fun x => s <+: x) i hi]
  · intro h1 h2 i hi
    rw [hres, first_serial_match, find_of_no_match kd usb (fun x => x = s) h1]
    simp only []
    rw [find_of_no_match kd usb (fun x => s <+: x) h2]
    simp only []
    rw [find_of_lowest_index kd usb (fun x => s <:+ x) i hi]

/-- The C2 scenarios of the specification: the serial "00000001" is found by
the exact tier, "001" by the tier matching the end of the serial, and with the
serials "AAA111" and "BBB111" the selector "111" resolves to the lower index. -/
theorem serial_tiers_lowest_index_witness :
    (verbose_device_search spec_table [dongle "00000001" 0] "00000001".toList zeroed).1 = 0
    ∧ (verbose_device_search spec_table [dongle "00000001" 0] "001".toList zeroed).1 = 0
    ∧ (verbose_device_search spec_table [dongle "AAA111" 0, hub, dongle "BBB111" 0]
        "111".toList zeroed).1 = 0 :=
  ⟨(serial_tiers_lowest_index spec_table [dongle "00000001" 0] "00000001".toList zeroed
      (by decide) (by decide) (by decide) (by decide) (by decide) (by decide)).1 0
      ⟨⟨_, rfl, rfl⟩, fun j hj => absurd hj (Nat.not_lt_zero j)⟩,
   (serial_tiers_lowest_index spec_table [dongle "00000001" 0] "001".toList zeroed
      (by decide) (by decide) (by decide) (by decide) (by decide) (by decide)).2.2
      (by decide) (by decide) 0
      ⟨⟨_, rfl, by decide⟩, fun j hj => absurd hj (Nat.not_lt_zero j)⟩,
   (serial_tiers_lowest_index spec_table [dongle "AAA111" 0, hub, dongle "BBB111" 0]
      "111".toList zeroed
      (by decide) (by decide) (by decide) (by decide) (by decide) (by decide)).2.2
      (by decide) (by decide) 0
      ⟨⟨_, rfl, by decide⟩, fun j hj => absurd hj (Nat.not_lt_zero j)⟩⟩

/-- C2 as stated fails.  First input: two matching devices with serials "AAA"
and "BBB", the second of which cannot be opened (`LIBUSB_ERROR_ACCESS`); the
selector "BBB" is not numeric and index 1 is the lowest index whose serial
equals it, yet the resolver returns -1.  Second input: serials "XYZ" and
"4294967296"; the selector "4294967296" is a numeric literal whose value is
outside `[0, 2)` and equals the serial of index 1, yet the resolver returns 0. -/
theorem serial_tiers_counterexample :
    ((matching spec_table [dongle "AAA" 0, dongle "BBB" (-3)]).map (fun dev => dev.serial)
        = ["AAA".toList, "BBB".toList]
      ∧ (strtol "BBB".toList).2 ≠ []
      ∧ (verbose_device_search spec_table [dongle "AAA" 0, dongle "BBB" (-3)]
          "BBB".toList zeroed).1 = -1)
    ∧ ((matching spec_table [dongle "XYZ" 0, dongle "4294967296" 0]).map
          (fun dev => dev.serial) = ["XYZ".toList, "4294967296".toList]
      ∧ strtol "4294967296".toList = (4294967296, [])
      ∧ (verbose_device_search spec_table [dongle "XYZ" 0, dongle "4294967296" 0]
          "4294967296".toList zeroed).1 = 0) := by
  decide

/-- C3 fails on the code: the dongle of index 0 has the serial "ZZ" and cannot
be opened (`LIBUSB_ERROR_ACCESS`), the dongle of index 1 has the serial "xAAA".
The selector "AAA" is strictly longer than the serial of index 0, and the
offset computed from that serial is negative; the tier matching the end of the
serial nevertheless selects index 0 and announces it with "Resetting device".
The read of index 0 fails and leaves the array `serial` as it was, its result
is discarded, and the offset is computed from "xAAA", which the preceding read
of index 1 left in the array.  When the dongle of index 0 can be opened, the
same selector resolves to index 1. -/
theorem sfx_tier_selects_shorter_serial :
    (matching spec_table [dongle "ZZ" (-3), dongle "xAAA" 0]).map
        (fun dev => (dev.open_r, dev.serial)) = [(-3, "ZZ".toList), (0, "xAAA".toList)]
    ∧ strlen "ZZ".toList < strlen "AAA".toList
    ∧ sfx_offset "AAA".toList "ZZ".toList < 0
    ∧ (strtol "AAA".toList).2 ≠ []
    ∧ (rtlsdr_get_device_usb_strings spec_table [dongle "ZZ" (-3), dongle "xAAA" 0] 0
        { manufact := some "Realtek".toList, product := some "RTL2838UHIDIR".toList,
          serial := some "xAAA".toList })
        = (-3, { manufact := some "Realtek".toList, product := some "RTL2838UHIDIR".toList,
                 serial := some "xAAA".toList },
           [Call.libusb_init, Call.libusb_get_device_list,
            Call.libusb_get_device_descriptor 0, Call.libusb_open 0,
            Call.libusb_free_device_list, Call.libusb_exit])
    ∧ sfx_offset "AAA".toList "xAAA".toList = 1
    ∧ (sfx_loop spec_table [dongle "ZZ" (-3), dongle "xAAA" 0] "AAA".toList [0, 1]
        { vendor := "Realtek".toList, product := "RTL2838UHIDIR".toList,
          serial := "xAAA".toList }).1 = some 0
    ∧ (verbose_device_search spec_table [dongle "ZZ" (-3), dongle "xAAA" 0]
        "AAA".toList zeroed).1 = 0
    ∧ (verbose_device_search spec_table [dongle "ZZ" (-3), dongle "xAAA" 0]
        "AAA".toList zeroed).2.1.getLast?
        = some { fmt := "Resetting device %d: %s\n",
                 args := [Arg.d 0, Arg.s "Generic RTL2832U".toList] }
    ∧ (verbose_device_search spec_table [dongle "ZZ" 0, dongle "xAAA" 0]
        "AAA".toList zeroed).1 = 1 := by
  decide

/-- C4: when no attached device has its identifiers in the table, the resolver
writes the single line "No supported devices found.", returns -1, and makes no
libusb call beyond those of the device count: nothing is listed, no device is
opened, no matching tier runs. -/
theorem no_supported_devices (kd : List rtlsdr_dongle_t) (usb : List libusb_device)
    (s : CStr) (b0 : Locals)
    (h : ∀ dev ∈ usb, find_known_device kd dev.idVendor dev.idProduct = none) :
    verbose_device_search kd usb s b0
      = (-1, [{ fmt := "No supported devices found.\n", args := [] }],
         [Call.libusb_init, Call.libusb_get_device_list] ++ descriptor_reads 0 usb.length
          ++ [Call.libusb_free_device_list, Call.libusb_exit]) := by
  have hcnt : rtlsdr_get_device_count kd usb
      = (0, [Call.libusb_init, Call.libusb_get_device_list] ++ descriptor_reads 0 usb.length
          ++ [Call.libusb_free_device_list, Call.libusb_exit]) := by
    unfold rtlsdr_get_device_count
    rw [rtlsdr_get_device_count_loop_none kd usb 0 0 h]
  have h0 : to_int ((0 : Nat) : Int) = 0 := by decide
  rw [search_no_devices kd usb s b0 (by rw [hcnt]; exact h0), hcnt]

/-- Only a hub is attached: the selector "0" finds no supported device. -/
theorem no_supported_devices_witness :
    verbose_device_search spec_table [hub] "0".toList zeroed
      = (-1, [{ fmt := "No supported devices found.\n", args := [] }],
         [Call.libusb_init, Call.libusb_get_device_list,
          Call.libusb_get_device_descriptor 0,
          Call.libusb_free_device_list, Call.libusb_exit]) :=
  no_supported_devices spec_table [hub] "0".toList zeroed (by decide)

/-- C5 fails on the code: one matching device with serial "00000001" and the
selector "4294967296".  The selector is a complete numeric literal whose value
is outside `[0, 1)`, and no serial equals it, starts with it or ends with it,
yet the resolver returns index 0 and announces the device instead of reporting
that no device matches. -/
theorem wide_literal_selects_device_zero :
    strtol "4294967296".toList = (4294967296, [])
    ∧ (matching spec_table [dongle "00000001" 0]).map (fun dev => dev.serial)
        = ["00000001".toList]
    ∧ ¬ "4294967296".toList <+: "00000001".toList
    ∧ ¬ "4294967296".toList <:+ "00000001".toList
    ∧ (verbose_device_search spec_table [dongle "00000001" 0] "4294967296".toList zeroed).1
        = 0
    ∧ (verbose_device_search spec_table [dongle "00000001" 0] "4294967296".toList
        zeroed).2.1.getLast?
        = some { fmt := "Using device %d: %s\n",
                 args := [Arg.d 0, Arg.s "Generic RTL2832U".toList] } := by
  decide

/-- C6: the device that `rtlsdr_get_device_usb_strings`, `rtl_device_reset` and
`rtlsdr_get_device_name` act on for index `i` is the element of rank `i` of
the sublist of host devices whose identifiers are in the table: it is the only
device the first two open, and the one whose table entry names the result of
the third; beyond the last matching device nothing is opened. -/
theorem index_is_rank_among_matching (kd : List rtlsdr_dongle_t) (usb : List libusb_device)
    (index : Nat) (out : Slots) (hlen : usb.length < 4294967296) :
    (∀ p dev, (matching_from kd usb 0)[index]? = some (p, dev) →
        usb[p]? = some dev ∧ known kd dev = true ∧ (matching kd usb)[index]? = some dev
        ∧ opened (rtlsdr_get_device_usb_strings kd usb index out).2.2 = [p]
        ∧ opened (rtl_device_reset kd usb index).2 = [p]
        ∧ rtlsdr_get_device_name kd usb index
            = (entry_name kd dev,
               [Call.libusb_init, Call.libusb_get_device_list] ++ descriptor_reads 0 (p + 1)
                ++ [Call.libusb_free_device_list, Call.libusb_exit]))
    ∧ ((matching kd usb).length ≤ index →
        opened (rtlsdr_get_device_usb_strings kd usb index out).2.2 = []
        ∧ opened (rtl_device_reset kd usb index).2 = []) := by
  constructor
  · intro p dev hsel
    have hpos := matching_from_pos kd usb 0 index p dev hsel
    refine ⟨by simpa using hpos.2.2.1, hpos.2.2.2, matching_of_matching_from kd usb 0 index p dev hsel,
      ?_, ?_, rtlsdr_get_device_name_eq kd usb index hlen p dev hsel⟩
    · rw [rtlsdr_get_device_usb_strings_eq kd usb index out hlen, opened_frame,
        opened_strings_selected, hsel]
      rfl
    · rw [rtl_device_reset_eq kd usb index hlen, opened_frame, opened_reset_selected, hsel]
      rfl
  · intro hle
    have hnone := (matching_from_none_iff kd usb 0 index).mpr hle
    constructor
    · rw [rtlsdr_get_device_usb_strings_eq kd usb index out hlen, opened_frame,
        opened_strings_selected, hnone]
      rfl
    · rw [rtl_device_reset_eq kd usb index hlen, opened_frame, opened_reset_selected, hnone]
      rfl

/-- Host list hub, dongle, hub, dongle: index 1 is the device at host position 3
for all three operations. -/
theorem index_is_rank_among_matching_witness :
    opened (rtlsdr_get_device_usb_strings spec_table
        [hub, dongle "A" 0, hub, dongle "B" 0] 1
        { manufact := none, product := none, serial := some [] }).2.2 = [3]
    ∧ opened (rtl_device_reset spec_table [hub, dongle "A" 0, hub, dongle "B" 0] 1).2 = [3]
    ∧ (rtlsdr_get_device_name spec_table [hub, dongle "A" 0, hub, dongle "B" 0] 1).1
        = "Generic RTL2832U".toList :=
  ⟨((index_is_rank_among_matching spec_table [hub, dongle "A" 0, hub, dongle "B" 0] 1
      { manufact := none, product := none, serial := some [] } (by decide)).1 3
      (dongle "B" 0) (by decide)).2.2.2.1,
   ((index_is_rank_among_matching spec_table [hub, dongle "A" 0, hub, dongle "B" 0] 1
      { manufact := none, product := none, serial := some [] } (by decide)).1 3
      (dongle "B" 0) (by decide)).2.2.2.2.1,
   by
    rw [((index_is_rank_among_matching spec_table [hub, dongle "A" 0, hub, dongle "B" 0] 1
      { manufact := none, product := none, serial := some [] } (by decide)).1 3
      (dongle "B" 0) (by decide)).2.2.2.2.2]
    decide⟩

/-- C7: `rtl_device_reset` returns -2 and touches no device when the index is
not below the number of matching devices; returns the (negative) error of
`libusb_open` and issues no reset when the selected device cannot be opened;
returns the result of `libusb_reset_device` when it can; returns 0 exactly when
the selected device was opened and its reset succeeded; and opens at most one
device and issues at most one reset. -/
theorem rtl_device_reset_outcomes (kd : List rtlsdr_dongle_t) (usb : List libusb_device)
    (index : Nat) (hlen : usb.length < 4294967296)
    (hapi : ∀ dev ∈ usb, dev.open_r ≤ 0) :
    ((matching kd usb).length ≤ index →
        (rtl_device_reset kd usb index).1 = -2
        ∧ opened (rtl_device_reset kd usb index).2 = []
        ∧ resets (rtl_device_reset kd usb index).2 = [])
    ∧ (∀ p dev, (matching_from kd usb 0)[index]? = some (p, dev) → dev.open_r ≠ 0 →
        (rtl_device_reset kd usb index).1 = dev.open_r
        ∧ (rtl_device_reset kd usb index).1 < 0
        ∧ opened (rtl_device_reset kd usb index).2 = [p]
        ∧ resets (rtl_device_reset kd usb index).2 = [])
    ∧ (∀ p dev, (matching_from kd usb 0)[index]? = some (p, dev) → dev.open_r = 0 →
        (rtl_device_reset kd usb index).1 = dev.reset_r
        ∧ opened (rtl_device_reset kd usb index).2 = [p]
        ∧ resets (rtl_device_reset kd usb index).2 = [p])
    ∧ ((rtl_device_reset kd usb index).1 = 0 ↔
        ∃ p dev, (matching_from kd usb 0)[index]? = some (p, dev)
          ∧ dev.open_r = 0 ∧ dev.reset_r = 0)
    ∧ (opened (rtl_device_reset kd usb index).2).length ≤ 1
    ∧ (resets (rtl_device_reset kd usb index).2).length ≤ 1 := by
  rw [rtl_device_reset_eq kd usb index hlen, opened_frame, resets_frame,
    opened_reset_selected, resets_reset_selected]
  refine ⟨?_, ?_, ?_, ?_, ?_, ?_⟩
  · intro hle
    rw [(matching_from_none_iff kd usb 0 index).mpr hle]
    simp [reset_selected]
  · intro p dev hsel ho
    have hmem : dev ∈ usb :=
      List.getElem?_mem (by simpa using (matching_from_pos kd usb 0 index p dev hsel).2.2.1)
    have := hapi dev hmem
    rw [hsel]
    simp [reset_selected, ho, Option.filter]
    omega
  · intro p dev hsel ho
    rw [hsel]
    simp [reset_selected, ho, Option.filter]
  · cases hsel : (matching_from kd usb 0)[index]? with
    | none => simp [reset_selected]
    | some pd =>
      obtain ⟨p, dev⟩ := pd
      by_cases ho : dev.open_r = 0
      · simp only [reset_selected, ho, if_true]
        constructor
        · intro h; exact ⟨p, dev, rfl, ho, h⟩
        · rintro ⟨q, d, hq, _, hr⟩
          cases hq
          exact hr
      · simp only [reset_selected, ho, if_false]
        constructor
        · intro h; exact h.elim
        · rintro ⟨q, d, hq, hoq, _⟩
          cases hq
          exact absurd hoq ho
  · cases (matching_from kd usb 0)[index]? <;> simp
  · cases hsel : (matching_from kd usb 0)[index]? with
    | none => simp [Option.filter]
    | some pd =>
      by_cases ho : pd.2.open_r = 0 <;> simp [Option.filter, ho]

/-- A dongle that cannot be opened: the reset returns the error of `libusb_open`
and issues no reset; an index past the last dongle returns -2. -/
theorem rtl_device_reset_outcomes_witness :
    ((rtl_device_reset spec_table [hub, dongle "A" (-3)] 0).1 = -3
      ∧ (rtl_device_reset spec_table [hub, dongle "A" (-3)] 0).1 < 0
      ∧ opened (rtl_device_reset spec_table [hub, dongle "A" (-3)] 0).2 = [1]
      ∧ resets (rtl_device_reset spec_table [hub, dongle "A" (-3)] 0).2 = [])
    ∧ ((rtl_device_reset spec_table [hub, dongle "A" (-3)] 1).1 = -2
      ∧ opened (rtl_device_reset spec_table [hub, dongle "A" (-3)] 1).2 = []
      ∧ resets (rtl_device_reset spec_table [hub, dongle "A" (-3)] 1).2 = []) :=
  ⟨(rtl_device_reset_outcomes spec_table [hub, dongle "A" (-3)] 0 (by decide)
      (by decide)).2.1 1 (dongle "A" (-3)) (by decide) (by decide),
   (rtl_device_reset_outcomes spec_table [hub, dongle "A" (-3)] 1 (by decide)
      (by decide)).1 (by decide)⟩

/-- C8: `rtlsdr_get_device_usb_strings` returns -2 when the index is not below
the number of matching devices and the (negative) error of `libusb_open` when
the selected device cannot be opened, leaving every slot as it was; its result
is never positive; it returns 0 only when the selected device was opened and
its descriptor read, and then every non-null slot holds the string of that
device and every null slot stays null, whatever the other slots are. -/
theorem rtlsdr_get_device_usb_strings_outcomes (kd : List rtlsdr_dongle_t)
    (usb : List libusb_device) (index : Nat) (out : Slots) (hlen : usb.length < 4294967296)
    (hapi : ∀ dev ∈ usb, dev.open_r ≤ 0) :
    ((matching kd usb).length ≤ index →
        (rtlsdr_get_device_usb_strings kd usb index out).1 = -2
        ∧ (rtlsdr_get_device_usb_strings kd usb index out).2.1 = out)
    ∧ (∀ p dev, (matching_from kd usb 0)[index]? = some (p, dev) → dev.open_r ≠ 0 →
        (rtlsdr_get_device_usb_strings kd usb index out).1 = dev.open_r
        ∧ (rtlsdr_get_device_usb_strings kd usb index out).1 < 0
        ∧ (rtlsdr_get_device_usb_strings kd usb index out).2.1 = out)
    ∧ (rtlsdr_get_device_usb_strings kd usb index out).1 ≤ 0
    ∧ ((rtlsdr_get_device_usb_strings kd usb index out).1 = 0 ↔
        ∃ p dev, (matching_from kd usb 0)[index]? = some (p, dev)
          ∧ dev.open_r = 0 ∧ 0 ≤ dev.descriptor_r)
    ∧ (∀ p dev, (matching_from kd usb 0)[index]? = some (p, dev) → dev.open_r = 0 →
        0 ≤ dev.descriptor_r →
        (rtlsdr_get_device_usb_strings kd usb index out).2.1
          = { manufact := out.manufact.map (fun _ => dev.manufacturer),
              product := out.product.map (fun _ => dev.product),
              serial := out.serial.map (fun _ => dev.serial) }) := by
  rw [rtlsdr_get_device_usb_strings_eq kd usb index out hlen]
  refine ⟨?_, ?_, ?_, ?_, ?_⟩
  · intro hle
    rw [(matching_from_none_iff kd usb 0 index).mpr hle]
    simp [strings_selected]
  · intro p dev hsel ho
    have hmem : dev ∈ usb :=
      List.getElem?_mem (by simpa using (matching_from_pos kd usb 0 index p dev hsel).2.2.1)
    have := hapi dev hmem
    rw [hsel]
    simp [strings_selected, ho]
    omega
  · cases hsel : (matching_from kd usb 0)[index]? with
    | none => simp [strings_selected]
    | some pd =>
      obtain ⟨p, dev⟩ := pd
      have hmem : dev ∈ usb :=
        List.getElem?_mem (by simpa using (matching_from_pos kd usb 0 index p dev hsel).2.2.1)
      have := hapi dev hmem
      by_cases ho : dev.open_r = 0
      · by_cases hd : dev.descriptor_r < 0 <;>
          simp [strings_selected, ho, libusb_get_usb_strings, hd]
      · simp [strings_selected, ho]
        exact this
  · cases hsel : (matching_from kd usb 0)[index]? with
    | none => simp [strings_selected]
    | some pd =>
      obtain ⟨p, dev⟩ := pd
      by_cases ho : dev.open_r = 0
      · by_cases hd : dev.descriptor_r < 0
        · simp [strings_selected, ho, libusb_get_usb_strings, hd]
        · simp only [strings_selected, ho, if_true, libusb_get_usb_strings, hd, if_false]
          constructor
          · intro _; exact ⟨p, dev, rfl, ho, by omega⟩
          · intro _; trivial
      · simp only [strings_selected, ho, if_false]
        constructor
        · intro h; exact h.elim
        · rintro ⟨q, d, hq, hoq, _⟩
          cases hq
          exact absurd hoq ho
  · intro p dev hsel ho hd
    have hd2 : ¬ dev.descriptor_r < 0 := by omega
    rw [hsel]
    simp [strings_selected, ho, libusb_get_usb_strings, hd2]

/-- A dongle read with a null manufacturer slot: the call returns 0, the null
slot stays null and the other two slots receive the strings of the device. -/
theorem rtlsdr_get_device_usb_strings_outcomes_witness :
    (rtlsdr_get_device_usb_strings spec_table [hub, dongle "00000001" 0] 0
        { manufact := none, product := some [], serial := some [] }).2.1
      = { manufact := none, product := some "RTL2838UHIDIR".toList,
          serial := some "00000001".toList } :=
  (rtlsdr_get_device_usb_strings_outcomes spec_table [hub, dongle "00000001" 0] 0
      { manufact := none, product := some [], serial := some [] } (by decide)
      (by decide)).2.2.2.2 1 (dongle "00000001" 0) (by decide) (by decide) (by decide)

/-- C9: with at most one `-d` flag and no other flag, `main` returns `-ENODEV`
without invoking `rtl_device_reset` (no libusb call follows those of the
resolver, and no reset is issued) when the resolver returns a negative value,
and otherwise invokes `rtl_device_reset` on exactly the resolved index and
returns its result unchanged. -/
theorem main_exit_code (kd : List rtlsdr_dongle_t) (usb : List libusb_device)
    (stack : Nat → Locals) (sel : Option CStr) :
    ((verbose_device_search kd usb (selector_of sel) (stack 0)).1 < 0 →
        main kd usb stack (at_most_one_d sel)
          = (Outcome.returned (-ENODEV),
             (verbose_device_search kd usb (selector_of sel) (stack 0)).2.1,
             (verbose_device_search kd usb (selector_of sel) (stack 0)).2.2)
        ∧ resets (main kd usb stack (at_most_one_d sel)).2.2 = [])
    ∧ (0 ≤ (verbose_device_search kd usb (selector_of sel) (stack 0)).1 →
        main kd usb stack (at_most_one_d sel)
          = (Outcome.returned (rtl_device_reset kd usb
               (verbose_device_search kd usb (selector_of sel) (stack 0)).1.toNat).1,
             (verbose_device_search kd usb (selector_of sel) (stack 0)).2.1,
             (verbose_device_search kd usb (selector_of sel) (stack 0)).2.2
               ++ (rtl_device_reset kd usb
                 (verbose_device_search kd usb (selector_of sel) (stack 0)).1.toNat).2)) := by
  constructor
  · intro hneg
    have h := main_at_most_one_d kd usb stack sel
    rw [if_pos hneg] at h
    refine ⟨h, ?_⟩
    rw [h]
    exact resets_verbose_device_search kd usb _ _
  · intro hpos
    have h := main_at_most_one_d kd usb stack sel
    rw [if_neg (by omega), search_index_uint32 kd usb _ _ hpos] at h
    exact h

/-- One dongle with serial "00000001": `-d 99` resolves to nothing and `main`
returns -19 (`-ENODEV`); `-d 001` resolves to index 0 and `main` returns the
result of the reset, 0. -/
theorem main_exit_code_witness :
    (main spec_table [hub, dongle "00000001" 0] (fun _ => zeroed)
        (at_most_one_d (some "99".toList))).1 = Outcome.returned (-19)
    ∧ (main spec_table [hub, dongle "00000001" 0] (fun _ => zeroed)
        (at_most_one_d (some "001".toList))).1 = Outcome.returned 0 :=
  ⟨by
    rw [((main_exit_code spec_table [hub, dongle "00000001" 0] (fun _ => zeroed)
      (some "99".toList)).1 (by decide)).1]
    decide,
   by
    rw [(main_exit_code spec_table [hub, dongle "00000001" 0] (fun _ => zeroed)
      (some "001".toList)).2 (by decide)]
    decide⟩

/-- C10: `main` without a `-d` flag behaves exactly as with `-d 0`: the
resolver runs once, on the selector "0", and when at least one matching device
is attached it resolves to index 0, `main` returns the result of
`rtl_device_reset(0)`, and the only device reset is the first matching device
of the host list (provided it can be opened). -/
theorem default_selector_is_zero (kd : List rtlsdr_dongle_t) (usb : List libusb_device)
    (stack : Nat → Locals) :
    main kd usb stack [] = main kd usb stack [Opt.d "0".toList]
    ∧ (main kd usb stack []).2.1 = (verbose_device_search kd usb "0".toList (stack 0)).2.1
    ∧ (usb.length < 2147483648 → matching kd usb ≠ [] →
        (verbose_device_search kd usb "0".toList (stack 0)).1 = 0
        ∧ main kd usb stack []
            = (Outcome.returned (rtl_device_reset kd usb 0).1,
               (verbose_device_search kd usb "0".toList (stack 0)).2.1,
               (verbose_device_search kd usb "0".toList (stack 0)).2.2
                 ++ (rtl_device_reset kd usb 0).2)
        ∧ ∀ p dev, (matching_from kd usb 0)[0]? = some (p, dev) →
            resets (main kd usb stack []).2.2 = if dev.open_r = 0 then [p] else []) := by
  have hmain := main_default_eq kd usb stack
  refine ⟨by rw [main_default_eq, main_single_eq], ?_, ?_⟩
  · rw [hmain]
    split <;> rfl
  · intro hlen hne
    have hpos : 0 < (matching kd usb).length := List.length_pos.mpr hne
    have hv : (verbose_device_search kd usb "0".toList (stack 0)).1 = 0 :=
      numeric_result kd usb "0".toList (stack 0) 0 hlen (by decide) (le_refl 0) (by omega)
    have hu : to_uint32 0 = 0 := by decide
    rw [hv, if_neg (lt_irrefl 0), hu] at hmain
    refine ⟨hv, hmain, ?_⟩
    intro p dev hsel
    rw [hmain]
    simp only [resets_append, resets_verbose_device_search, List.nil_append]
    rw [rtl_device_reset_eq kd usb 0 (by omega), resets_frame, resets_reset_selected, hsel]
    by_cases ho : dev.open_r = 0 <;> simp [Option.filter, ho]

/-- Host list hub, dongle "AAA111", dongle "BBB111": without a flag the device
at host position 1, the first dongle, is the one reset. -/
theorem default_selector_is_zero_witness :
    resets (main spec_table [hub, dongle "AAA111" 0, dongle "BBB111" 0]
      (fun _ => zeroed) []).2.2 = [1] :=
  ((default_selector_is_zero spec_table [hub, dongle "AAA111" 0, dongle "BBB111" 0]
      (fun _ => zeroed)).2.2 (by decide) (by decide)).2.2 1 (dongle "AAA111" 0) (by decide)

/-! ### The `getopt` loop at `-h` or an unknown flag -/

theorem getopt_loop_usage (kd : List rtlsdr_dongle_t) (usb : List libusb_device)
    (stack : Nat → Locals) (opts : List Opt) (st : MainState)
    (h : ∃ o ∈ opts, o = Opt.h ∨ o = Opt.unknown) :
    (getopt_loop kd usb stack opts st).1 = none
    ∧ (getopt_loop kd usb stack opts st).2.err.getLast? = some usage_text
    ∧ resets (getopt_loop kd usb stack opts st).2.calls = resets st.calls := by
  induction opts generalizing st with
  | nil => simp at h
  | cons o rest ih =>
    cases o with
    | d a =>
      have hrest : ∃ o ∈ rest, o = Opt.h ∨ o = Opt.unknown := by
        obtain ⟨o, ho, hh⟩ := h
        rcases List.mem_cons.mp ho with rfl | hmem
        · rcases hh with hh | hh <;> cases hh
        · exact ⟨o, hmem, hh⟩
      rw [getopt_loop]
      obtain ⟨h1, h2, h3⟩ := ih _ hrest
      refine ⟨h1, h2, ?_⟩
      rw [h3, resets_append, resets_verbose_device_search, List.append_nil]
    | h =>
      rw [getopt_loop]
      · exact ⟨rfl, by simp, rfl⟩
      · intro a; simp
    | unknown =>
      rw [getopt_loop]
      · exact ⟨rfl, by simp, rfl⟩
      · intro a; simp

theorem getopt_loop_cut (kd : List rtlsdr_dongle_t) (usb : List libusb_device)
    (stack : Nat → Locals) (pre post : List Opt) (o : Opt) (st : MainState)
    (ho : o = Opt.h ∨ o = Opt.unknown) :
    getopt_loop kd usb stack (pre ++ o :: post) st
      = getopt_loop kd usb stack (pre ++ [o]) st := by
  induction pre generalizing st with
  | nil =>
    rcases ho with rfl | rfl
    · rw [List.nil_append, List.nil_append, getopt_loop, getopt_loop]
      · intro a; simp
      · intro a; simp
    · rw [List.nil_append, List.nil_append, getopt_loop, getopt_loop]
      · intro a; simp
      · intro a; simp
  | cons q pre ih =>
    cases q with
    | d a =>
      rw [List.cons_append, List.cons_append, getopt_loop, getopt_loop]
      exact ih _
    | h =>
      rw [List.cons_append, List.cons_append, getopt_loop, getopt_loop]
      · intro a; simp
      · intro a; simp
    | unknown =>
      rw [List.cons_append, List.cons_append, getopt_loop, getopt_loop]
      · intro a; simp
      · intro a; simp

theorem main_of_usage (kd : List rtlsdr_dongle_t) (usb : List libusb_device)
    (stack : Nat → Locals) (opts : List Opt)
    (hg : (getopt_loop kd usb stack opts
      { devGiven := 0, devIndex := 0, searches := 0, err := [], calls := [] }).1 = none) :
    main kd usb stack opts
      = (Outcome.exited 1,
         (getopt_loop kd usb stack opts
           { devGiven := 0, devIndex := 0, searches := 0, err := [], calls := [] }).2.err,
         (getopt_loop kd usb stack opts
           { devGiven := 0, devIndex := 0, searches := 0, err := [], calls := [] }).2.calls) := by
  unfold main
  simp only [hg]

/-! ## The claims, continued -/

/-- C11: when `getopt` yields `-h` or an unknown flag somewhere in the argument
list, the program prints the usage text last and exits with status 1, no
device reset is issued in that run, and nothing after the first such flag has
any effect, whatever `-d` flags precede or follow it. -/
theorem usage_exits_without_reset (kd : List rtlsdr_dongle_t) (usb : List libusb_device)
    (stack : Nat → Locals) (opts : List Opt)
    (h : ∃ o ∈ opts, o = Opt.h ∨ o = Opt.unknown) :
    (main kd usb stack opts).1 = Outcome.exited 1
    ∧ (main kd usb stack opts).2.1.getLast? = some usage_text
    ∧ resets (main kd usb stack opts).2.2 = []
    ∧ ∀ pre post o, opts = pre ++ o :: post → (o = Opt.h ∨ o = Opt.unknown) →
        main kd usb stack opts = main kd usb stack (pre ++ [o]) := by
  obtain ⟨h1, h2, h3⟩ := getopt_loop_usage kd usb stack opts
    { devGiven := 0, devIndex := 0, searches := 0, err := [], calls := [] } h
  rw [main_of_usage kd usb stack opts h1]
  refine ⟨rfl, h2, h3, ?_⟩
  intro pre post o hopts ho
  have hcut := getopt_loop_cut kd usb stack pre post o
    { devGiven := 0, devIndex := 0, searches := 0, err := [], calls := [] } ho
  have h1b : (getopt_loop kd usb stack (pre ++ [o])
      { devGiven := 0, devIndex := 0, searches := 0, err := [], calls := [] }).1 = none := by
    rw [← hcut, ← hopts]; exact h1
  rw [main_of_usage kd usb stack (pre ++ [o]) h1b, ← hcut, ← hopts]

/-- The command line `-d 0 -h -d 1` on a host with one dongle: the resolver
runs once for `-d 0`, then usage ends the process with status 1; no device is
reset and `-d 1` is never looked at. -/
theorem usage_exits_without_reset_witness :
    (main spec_table [hub, dongle "00000001" 0] (fun _ => zeroed)
        [Opt.d "0".toList, Opt.h, Opt.d "1".toList]).1 = Outcome.exited 1
    ∧ resets (main spec_table [hub, dongle "00000001" 0] (fun _ => zeroed)
        [Opt.d "0".toList, Opt.h, Opt.d "1".toList]).2.2 = []
    ∧ main spec_table [hub, dongle "00000001" 0] (fun _ => zeroed)
        [Opt.d "0".toList, Opt.h, Opt.d "1".toList]
      = main spec_table [hub, dongle "00000001" 0] (fun _ => zeroed)
        [Opt.d "0".toList, Opt.h] :=
  ⟨(usage_exits_without_reset spec_table [hub, dongle "00000001" 0] (fun _ => zeroed)
      [Opt.d "0".toList, Opt.h, Opt.d "1".toList] ⟨Opt.h, by decide, Or.inl rfl⟩).1,
   (usage_exits_without_reset spec_table [hub, dongle "00000001" 0] (fun _ => zeroed)
      [Opt.d "0".toList, Opt.h, Opt.d "1".toList] ⟨Opt.h, by decide, Or.inl rfl⟩).2.2.1,
   (usage_exits_without_reset spec_table [hub, dongle "00000001" 0] (fun _ => zeroed)
      [Opt.d "0".toList, Opt.h, Opt.d "1".toList] ⟨Opt.h, by decide, Or.inl rfl⟩).2.2.2
      [Opt.d "0".toList] [Opt.d "1".toList] Opt.h rfl (Or.inl rfl)⟩

/-! ### The device count on a host list of any length -/

theorem rtlsdr_get_device_count_loop_mod (kd : List rtlsdr_dongle_t) (l : List libusb_device)
    (i0 c : Nat) (hc : c < 4294967296) :
    (rtlsdr_get_device_count_loop kd l i0 c).1 = (c + (matching kd l).length) % 4294967296 := by
  induction l generalizing i0 c with
  | nil => simp [rtlsdr_get_device_count_loop, matching]; omega
  | cons d l ih =>
    unfold rtlsdr_get_device_count_loop
    by_cases hk : known kd d = true
    · have hk2 : (find_known_device kd d.idVendor d.idProduct).isSome = true := hk
      simp only [hk2, if_true]
      rw [ih (i0 + 1) ((c + 1) % 4294967296) (Nat.mod_lt _ (by decide))]
      simp only [matching, List.filter_cons, hk, if_true, List.length_cons]
      omega
    · have hk2 : ¬ (find_known_device kd d.idVendor d.idProduct).isSome = true := hk
      simp only [hk2, Bool.false_eq_true, ↓reduceIte]
      rw [ih (i0 + 1) c hc]
      simp only [matching, List.filter_cons, hk, Bool.false_eq_true, ↓reduceIte]

theorem rtlsdr_get_device_count_mod (kd : List rtlsdr_dongle_t) (usb : List libusb_device) :
    (rtlsdr_get_device_count kd usb).1 = (matching kd usb).length % 4294967296 := by
  unfold rtlsdr_get_device_count
  simp only []
  rw [rtlsdr_get_device_count_loop_mod kd usb 0 0 (by decide), Nat.zero_add]

/-- C12: `rtlsdr_get_device_count` returns the number of devices of the host
list whose identifiers have an entry in the known-device table, as a
`uint32_t`: reduced modulo 2^32 in general, and exactly that number for every
host list shorter than 2^32; its libusb calls read the descriptor of every
host device once, in host order, and open none. -/
theorem device_count_is_number_of_matching (kd : List rtlsdr_dongle_t)
    (usb : List libusb_device) :
    (rtlsdr_get_device_count kd usb).1
        = (usb.filter (fun dev =>
            (find_known_device kd dev.idVendor dev.idProduct).isSome)).length % 4294967296
    ∧ (usb.length < 4294967296 →
        (rtlsdr_get_device_count kd usb).1
          = (usb.filter (fun dev =>
              (find_known_device kd dev.idVendor dev.idProduct).isSome)).length
        ∧ (rtlsdr_get_device_count kd usb).2
          = [Call.libusb_init, Call.libusb_get_device_list]
            ++ (List.range usb.length).map Call.libusb_get_device_descriptor
            ++ [Call.libusb_free_device_list, Call.libusb_exit]) := by
  refine ⟨rtlsdr_get_device_count_mod kd usb, ?_⟩
  intro hlen
  rw [rtlsdr_get_device_count_eq kd usb hlen]
  refine ⟨rfl, ?_⟩
  simp only [descriptor_reads, List.range_eq_range']

/-- Host list hub, dongle, hub, dongle: the count is 2. -/
theorem device_count_is_number_of_matching_witness :
    (rtlsdr_get_device_count spec_table [hub, dongle "A" 0, hub, dongle "B" 0]).1 = 2 :=
  ((device_count_is_number_of_matching spec_table [hub, dongle "A" 0, hub, dongle "B" 0]).2
    (by decide)).1

/-! ### The scan of the known-device table -/

theorem find_known_device_loop_none (vid pid : Nat) (l : List rtlsdr_dongle_t) (i0 : Nat) :
    find_known_device_loop vid pid l i0 = none ↔ ∀ e ∈ l, ¬ (e.vid = vid ∧ e.pid = pid) := by
  induction l generalizing i0 with
  | nil => simp [find_known_device_loop]
  | cons e l ih =>
    unfold find_known_device_loop
    by_cases hm : e.vid = vid ∧ e.pid = pid
    · rw [if_pos hm]
      constructor
      · intro h; cases h
      · intro h; exact absurd hm (h e (List.mem_cons_self _ _))
    · rw [if_neg hm, ih (i0 + 1)]
      constructor
      · intro h x hx
        rcases List.mem_cons.mp hx with rfl | hx
        · exact hm
        · exact h x hx
      · intro h x hx
        exact h x (List.mem_cons_of_mem _ hx)

theorem find_known_device_loop_some (vid pid : Nat) (l : List rtlsdr_dongle_t) (i0 k : Nat) :
    find_known_device_loop vid pid l i0 = some k ↔
      i0 ≤ k ∧ (∃ e, l[k - i0]? = some e ∧ e.vid = vid ∧ e.pid = pid)
        ∧ ∀ j, j < k - i0 → ∀ e, l[j]? = some e → ¬ (e.vid = vid ∧ e.pid = pid) := by
  induction l generalizing i0 with
  | nil => simp [find_known_device_loop]
  | cons x l ih =>
    unfold find_known_device_loop
    by_cases hm : x.vid = vid ∧ x.pid = pid
    · rw [if_pos hm]
      constructor
      · intro h
        simp only [Option.some.injEq] at h
        subst h
        refine ⟨le_refl _, ⟨x, by simp, hm⟩, ?_⟩
        intro j hj
        omega
      · rintro ⟨hle, _, hmin⟩
        by_cases hk : k = i0
        · rw [hk]
        · exact absurd hm (hmin 0 (by omega) x (by simp))
    · rw [if_neg hm, ih (i0 + 1)]
      constructor
      · rintro ⟨hle, ⟨e, he, hme⟩, hmin⟩
        have e1 : k - i0 = (k - (i0 + 1)) + 1 := by omega
        refine ⟨by omega, ⟨e, by rw [e1]; simpa using he, hme⟩, ?_⟩
        intro j hj y hy
        cases j with
        | zero =>
          simp at hy
          subst hy
          exact hm
        | succ j =>
          simp at hy
          exact hmin j (by omega) y hy
      · rintro ⟨hle, ⟨e, he, hme⟩, hmin⟩
        have hne : k ≠ i0 := by
          intro hk
          rw [hk] at he
          simp at he
          subst he
          exact hm hme
        have e1 : k - i0 = (k - (i0 + 1)) + 1 := by omega
        rw [e1] at he
        refine ⟨by omega, ⟨e, by simpa using he, hme⟩, ?_⟩
        intro j hj y hy
        exact hmin (j + 1) (by omega) y (by simpa using hy)

/-- C14: `find_known_device` returns the entry of least position whose `vid`
and `pid` both equal the arguments, and returns `NULL` exactly when no entry
of the table has that pair; duplicates in the table are allowed. -/
theorem find_known_device_first_match (kd : List rtlsdr_dongle_t) (vid pid : Nat) :
    (find_known_device kd vid pid = none ↔ ∀ e ∈ kd, ¬ (e.vid = vid ∧ e.pid = pid))
    ∧ ∀ k, find_known_device kd vid pid = some k ↔
        (∃ e, kd[k]? = some e ∧ e.vid = vid ∧ e.pid = pid)
          ∧ ∀ j, j < k → ∀ e, kd[j]? = some e → ¬ (e.vid = vid ∧ e.pid = pid) := by
  constructor
  · exact find_known_device_loop_none vid pid kd 0
  · intro k
    unfold find_known_device
    rw [find_known_device_loop_some vid pid kd 0 k]
    simp

/-- A table with the same pair at positions 1 and 2: the lookup returns
position 1; a pair that is not in the table gives `NULL`. -/
theorem find_known_device_first_match_witness :
    find_known_device
        [{ vid := 3034, pid := 10290, name := "A".toList },
         { vid := 3034, pid := 10296, name := "B".toList },
         { vid := 3034, pid := 10296, name := "C".toList }] 3034 10296 = some 1
    ∧ find_known_device
        [{ vid := 3034, pid := 10290, name := "A".toList },
         { vid := 3034, pid := 10296, name := "B".toList },
         { vid := 3034, pid := 10296, name := "C".toList }] 3034 10297 = none :=
  ⟨((find_known_device_first_match _ 3034 10296).2 1).mpr
      ⟨⟨_, rfl, rfl, rfl⟩, by
        intro j hj e he
        have hj0 : j = 0 := by omega
        subst hj0
        simp at he
        subst he
        decide⟩,
   (find_known_device_first_match _ 3034 10297).1.mpr (by decide)⟩

/-! ### The resolver and the content of its uninitialised arrays -/

theorem search_value_of_readable (kd : List rtlsdr_dongle_t) (usb : List libusb_device)
    (s : CStr) (b0 b1 : Locals) (hlen : usb.length < 2147483648)
    (hread : ∀ dev ∈ matching kd usb, dev.open_r = 0 ∧ 0 ≤ dev.descriptor_r)
    (hfit : ∀ dev ∈ matching kd usb, dev.serial.length ≤ 255)
    (hs : s.length < 2147483648) :
    (verbose_device_search kd usb s b0).1 = (verbose_device_search kd usb s b1).1 := by
  have hc := device_count_int kd usb hlen
  by_cases h1 : to_int ((rtlsdr_get_device_count kd usb).1 : Int) = 0
  · rw [search_no_devices kd usb s b0 h1, search_no_devices kd usb s b1 h1]
  · by_cases h2 : (strtol s).2 = [] ∧ 0 ≤ to_int (strtol s).1
        ∧ to_int (strtol s).1 < to_int ((rtlsdr_get_device_count kd usb).1 : Int)
    · rw [search_numeric kd usb s b0 h1 h2, search_numeric kd usb s b1 h1 h2]
      rfl
    · have hne : matching kd usb ≠ [] := by
        intro h
        apply h1
        rw [hc, h]
        rfl
      have hnum : ¬ ((strtol s).2 = [] ∧ 0 ≤ to_int (strtol s).1
          ∧ to_int (strtol s).1 < ((matching kd usb).length : Int)) := by
        rw [← hc]; exact h2
      rw [search_readable kd usb s b0 hlen hread hfit hs hne hnum,
        search_readable kd usb s b1 hlen hread hfit hs hne hnum]

/-- C13 fails on the code: one matching device that cannot be opened
(`LIBUSB_ERROR_ACCESS`) and the selector "XYZ", resolved twice against the
same snapshot.  When the uninitialised array `serial` happens to hold "XYZ" on
entry the resolver returns index 0; when it holds an empty string the resolver
returns -1. -/
theorem resolver_depends_on_uninitialised_serial :
    (verbose_device_search spec_table [dongle "00000001" (-3)] "XYZ".toList
        { vendor := [], product := [], serial := "XYZ".toList }).1 = 0
    ∧ (verbose_device_search spec_table [dongle "00000001" (-3)] "XYZ".toList zeroed).1
        = -1 := by
  decide

/-- C15 fails on the code: the dongle of index 0 has the serial "ZZZ" and
cannot be opened (`LIBUSB_ERROR_ACCESS`), the dongle of index 1 has the serial
"AAA".  The selector "AAA" is not numeric, the serial of index 0 does not
equal it, start with it or end with it, and index 1 is the only index whose
serial matches; the resolver returns index 0, on the strength of the serial the
listing loop left in the buffer when it read index 1. -/
theorem stale_serial_selects_unread_device :
    (matching spec_table [dongle "ZZZ" (-3), hub, dongle "AAA" 0]).map
        (fun dev => (dev.open_r, dev.serial)) = [(-3, "ZZZ".toList), (0, "AAA".toList)]
    ∧ (strtol "AAA".toList).2 ≠ []
    ∧ ¬ "AAA".toList <+: "ZZZ".toList
    ∧ ¬ "AAA".toList <:+ "ZZZ".toList
    ∧ (rtlsdr_get_device_usb_strings spec_table [dongle "ZZZ" (-3), hub, dongle "AAA" 0] 0
        { manufact := some [], product := some [], serial := some "AAA".toList })
        = (-3, { manufact := some [], product := some [], serial := some "AAA".toList },
           [Call.libusb_init, Call.libusb_get_device_list,
            Call.libusb_get_device_descriptor 0, Call.libusb_open 0,
            Call.libusb_free_device_list, Call.libusb_exit])
    ∧ (verbose_device_search spec_table [dongle "ZZZ" (-3), hub, dongle "AAA" 0]
        "AAA".toList zeroed).1 = 0 := by
  decide

/-- C16 fails on the code: two dongles and the selector "4294967296", a
complete integer literal whose value is outside `[0, 2)`.  `strtol` returns the
`long` 4294967296, the cast to `int` gives 0, and the numeric tier selects
index 0: the resolver returns right after the listing, with the announcement
of the numeric tier, before any serial tier runs.  The selector "4294967297"
selects index 1 in the same way. -/
theorem numeric_tier_accepts_truncated_literal :
    strtol "4294967296".toList = (4294967296, [])
    ∧ to_int 4294967296 = 0
    ∧ verbose_device_search spec_table [dongle "AAA111" 0, dongle "BBB111" 0]
        "4294967296".toList zeroed
      = announce spec_table [dongle "AAA111" 0, dongle "BBB111" 0] "Using device %d: %s\n" 0
          ([{ fmt := "Found %d device(s):\n", args := [Arg.d 2] }]
            ++ (listing_loop spec_table [dongle "AAA111" 0, dongle "BBB111" 0] [0, 1]
                zeroed).2.1
            ++ [{ fmt := "\n", args := [] }])
          ((rtlsdr_get_device_count spec_table [dongle "AAA111" 0, dongle "BBB111" 0]).2
            ++ (listing_loop spec_table [dongle "AAA111" 0, dongle "BBB111" 0] [0, 1]
                zeroed).2.2)
    ∧ (verbose_device_search spec_table [dongle "AAA111" 0, dongle "BBB111" 0]
        "4294967296".toList zeroed).1 = 0
    ∧ (verbose_device_search spec_table [dongle "AAA111" 0, dongle "BBB111" 0]
        "4294967297".toList zeroed).1 = 1 := by
  decide

/-! ### The resolved index and the enumerated devices -/

theorem to_int_natCast_le (k : Nat) : to_int (k : Int) ≤ (k : Int) := by
  unfold to_int
  split <;> omega

theorem device_count_int_le (kd : List rtlsdr_dongle_t) (usb : List libusb_device) :
    to_int ((rtlsdr_get_device_count kd usb).1 : Int) ≤ ((matching kd usb).length : Int) := by
  have h1 := to_int_natCast_le (rtlsdr_get_device_count kd usb).1
  have h2 := rtlsdr_get_device_count_mod kd usb
  have h3 : (matching kd usb).length % 4294967296 ≤ (matching kd usb).length :=
    Nat.mod_le _ _
  omega

/-- C17: the value `verbose_device_search` returns is -1 or an index `i` with
`0 <= i < deviceCount`, the index of a currently enumerated matching device,
for every snapshot, selector and content of the uninitialised arrays. -/
theorem resolved_index_is_enumerated (kd : List rtlsdr_dongle_t) (usb : List libusb_device)
    (s : CStr) (b0 : Locals) :
    (verbose_device_search kd usb s b0).1 = -1
    ∨ (0 ≤ (verbose_device_search kd usb s b0).1
        ∧ (verbose_device_search kd usb s b0).1 < ((matching kd usb).length : Int)
        ∧ ∃ dev, (matching kd usb)[(verbose_device_search kd usb s b0).1.toNat]? = some dev) := by
  have hle := device_count_int_le kd usb
  rcases search_result_range kd usb s b0 with h | ⟨h0, h1⟩
  · exact Or.inl h
  · refine Or.inr ⟨h0, by omega, ?_⟩
    have hlt : (verbose_device_search kd usb s b0).1.toNat < (matching kd usb).length := by
      omega
    exact ⟨_, List.getElem?_eq_getElem hlt⟩

/-- C18: with at least one matching device the empty selector resolves to
index 0 through the numeric tier: `strtol` consumes nothing, yields 0 and
leaves the end pointer at the terminating NUL, and the resolver returns from
the numeric tier right after the listing, whatever the serial strings are. -/
theorem empty_selector_is_index_zero (kd : List rtlsdr_dongle_t) (usb : List libusb_device)
    (b0 : Locals) (hlen : usb.length < 2147483648) (hne : matching kd usb ≠ []) :
    strtol [] = (0, [])
    ∧ (verbose_device_search kd usb [] b0).1 = 0
    ∧ verbose_device_search kd usb [] b0
        = announce kd usb "Using device %d: %s\n" 0
            ([{ fmt := "Found %d device(s):\n",
                args := [Arg.d ((matching kd usb).length : Int)] }]
              ++ (listing_loop kd usb (List.range (matching kd usb).length) b0).2.1
              ++ [{ fmt := "\n", args := [] }])
            ((rtlsdr_get_device_count kd usb).2
              ++ (listing_loop kd usb (List.range (matching kd usb).length) b0).2.2) := by
  have hs : strtol [] = (0, []) := by decide
  have hpos : 0 < (matching kd usb).length := List.length_pos.mpr hne
  have hc := device_count_int kd usb hlen
  have h0 : to_int 0 = 0 := by decide
  refine ⟨hs, numeric_result kd usb [] b0 0 hlen hs (le_refl 0) (by omega), ?_⟩
  rw [search_numeric kd usb [] b0 (by rw [hc]; omega)
    (by rw [hc, hs]; simp only [h0]; exact ⟨trivial, le_refl 0, by omega⟩)]
  rw [hc, hs]
  simp only [h0, Int.toNat_ofNat]

/-- Two dongles, the first with the empty serial: the empty selector resolves
to index 0. -/
theorem empty_selector_is_index_zero_witness :
    (verbose_device_search spec_table [hub, dongle "" 0, dongle "AAA" 0] [] zeroed).1 = 0 :=
  (empty_selector_is_index_zero spec_table [hub, dongle "" 0, dongle "AAA" 0] zeroed
    (by decide) (by decide)).2.1

end RtlReset
